import Mathlib

/-!
# Verification of the VeriRisk predictive-risk pipeline

A shallow embedding, over `ℚ`, of the feature-engineering, labelling,
alerting, collection and simulation components of the VeriRisk backend
(`backend/features/basic_timeseries.py`, `backend/features/advanced_features.py`,
`backend/model_trainer.py`, `backend/services/risk_evaluator.py`,
`backend/services/simulation_service.py`, `backend/jobs/hourly_snapshot.py`,
`backend/model_server.py`, `backend/routers/risk.py`), together with proofs of
the specification's testable properties.

Conventions:
* Python floats are modelled as rationals (`ℚ`); the claims under study are
  exact arithmetic identities, bounds and noninterference statements, none of
  which hinge on rounding of binary floating point.
* Instants (`datetime`) are modelled as integer minutes (`ℤ`); one hour is 60
  units, and `timedelta(hours=h)` is `60*h`.
* Nullable columns / `Optional[float]` are `Option ℚ`.
* `numpy`'s square root (the only irrational operation, used by
  `pandas.rolling(...).std()`) is a parameter `s : ℚ → ℚ` of the batch feature
  engine; every theorem below is proved for all `s`.
-/

namespace VeriRisk

/-- `max lo (min hi x)`: the `max(lo, min(hi, x))` clamp idiom used throughout
the Python sources (`pandas.clip`, `np.clip`, explicit `max/min` chains). -/
def clampQ (lo hi x : ℚ) : ℚ := max lo (min hi x)

/-- Python truthiness-based substitution `x or d` on an optional float:
the default is taken when the stored value is `None` **or** equal to `0.0`. -/
def pyOr (x : Option ℚ) (d : ℚ) : ℚ :=
  match x with
  | none => d
  | some v => if v = 0 then d else v

/-! ## `features/advanced_features.py` — `PredictiveFeatures` -/

/-- `PredictiveFeatures` (advanced_features.py, lines 37-102): the ten optional
feature slots handed to `to_dict` / `get_feature_vector`.  The data-quality
fields (`data_points_available`, `sufficient_data`, `warnings`) play no role in
`to_dict` and are omitted. -/
structure PredictiveFeatures where
  tvl_change_6h : Option ℚ := none
  tvl_change_24h : Option ℚ := none
  tvl_acceleration : Option ℚ := none
  volume_spike_ratio : Option ℚ := none
  reserve_imbalance : Option ℚ := none
  reserve_imbalance_rate : Option ℚ := none
  volatility_6h : Option ℚ := none
  volatility_24h : Option ℚ := none
  volatility_ratio : Option ℚ := none
  early_warning_score : Option ℚ := none
  deriving DecidableEq, Repr

/-- The dictionary produced by `PredictiveFeatures.to_dict`: ten concrete
floats, one per feature name. -/
structure FeatureDict where
  tvl_change_6h : ℚ
  tvl_change_24h : ℚ
  tvl_acceleration : ℚ
  volume_spike_ratio : ℚ
  reserve_imbalance : ℚ
  reserve_imbalance_rate : ℚ
  volatility_6h : ℚ
  volatility_24h : ℚ
  volatility_ratio : ℚ
  early_warning_score : ℚ
  deriving DecidableEq, Repr

/-- `PredictiveFeatures.to_dict` (advanced_features.py, lines 73-86).  Each
entry is `self.<field> or <default>` — Python truthiness substitution. -/
def PredictiveFeatures.to_dict (f : PredictiveFeatures) : FeatureDict where
  tvl_change_6h := pyOr f.tvl_change_6h 0
  tvl_change_24h := pyOr f.tvl_change_24h 0
  tvl_acceleration := pyOr f.tvl_acceleration 0
  volume_spike_ratio := pyOr f.volume_spike_ratio 1
  reserve_imbalance := pyOr f.reserve_imbalance 0
  reserve_imbalance_rate := pyOr f.reserve_imbalance_rate 0
  volatility_6h := pyOr f.volatility_6h 0
  volatility_24h := pyOr f.volatility_24h 0
  volatility_ratio := pyOr f.volatility_ratio 1
  early_warning_score := pyOr f.early_warning_score 50

/-- `PredictiveFeatures.get_feature_vector` (advanced_features.py, lines
88-102): the ten `to_dict` entries in canonical model order. -/
def PredictiveFeatures.get_feature_vector (f : PredictiveFeatures) : List ℚ :=
  let d := f.to_dict
  [d.tvl_change_6h, d.tvl_change_24h, d.tvl_acceleration, d.volume_spike_ratio,
   d.reserve_imbalance, d.reserve_imbalance_rate, d.volatility_6h,
   d.volatility_24h, d.volatility_ratio, d.early_warning_score]

/-! ## `features/advanced_features.py` — early-warning score -/

/-- `AdvancedFeatureEngine.EWS_WEIGHTS` (advanced_features.py, lines 139-146),
in the order `tvl_change_6h, tvl_change_24h, tvl_acceleration,
volume_spike_ratio, reserve_imbalance_rate, volatility_ratio`. -/
def EWS_WEIGHTS : ℚ × ℚ × ℚ × ℚ × ℚ × ℚ :=
  (15/100, 20/100, 20/100, 15/100, 10/100, 20/100)

/-- `AdvancedFeatureEngine._compute_early_warning_score` (advanced_features.py,
lines 251-293), applied to one row of the feature columns: start at neutral 50,
add the six weighted components in source order, then `clip(0, 100)`.
(The `.fillna(0)` calls are identities over `ℚ`.) -/
def computeEarlyWarningScore (tvl6 tvl24 accel vsr imbRate volRatio : ℚ) : ℚ :=
  let w := EWS_WEIGHTS
  let score : ℚ := 50
  let score := score + (-tvl6 * 100 * w.1)
  let score := score + (-tvl24 * 100 * w.2.1)
  let score := score + (-accel * 100 * w.2.2.1)
  let score := score + (max (vsr - 1) 0 * 10 * w.2.2.2.1)
  let score := score + (imbRate * 100 * w.2.2.2.2.1)
  let score := score + (max (volRatio - 1) 0 * 10 * w.2.2.2.2.2)
  clampQ 0 100 score

/-! ## `features/advanced_features.py` — `AdvancedFeatureEngine.compute_features_from_df`

The batch engine computes, per row of a single pool's time-sorted series, the
ten predictive features.  Pandas columns are modelled as functions of the row
index; rolling windows are the trailing slices pandas uses.  Two modelling
notes, both irrelevant to the claims proved below:
* `pct_change` over a zero base yields `±inf` in pandas (`NaN` for `0/0`,
  which `fillna(0)` turns into `0`); over `ℚ`, division by zero yields `0`.
* `.rolling(...).std()` is `s (sample variance)` for a caller-supplied
  `s : ℚ → ℚ` standing for `numpy`'s square root; all theorems hold for
  every `s`.
-/

/-- One input row of the training DataFrame after the
`pd.to_numeric(...).fillna(0)` coercion in `compute_features_from_df`
(advanced_features.py, lines 174-176): all metric columns are concrete. -/
structure RawRow where
  ts : ℤ
  tvl : ℚ
  vol : ℚ
  r0 : ℚ
  r1 : ℚ
  deriving DecidableEq, Repr

/-- Stable insertion of a row into a list sorted by ascending timestamp. -/
def insertRawByTs (a : RawRow) : List RawRow → List RawRow
  | [] => [a]
  | b :: l => if a.ts ≤ b.ts then a :: b :: l else b :: insertRawByTs a l

/-- `df.sort_values('timestamp')` (a stable sort by ascending timestamp). -/
def sortRawByTs (l : List RawRow) : List RawRow := l.foldr insertRawByTs []

/-- Mean of a list of rationals (`sum / len`; `0` for the empty list, which
never occurs under the `min_periods` guards below). -/
def meanQ (l : List ℚ) : ℚ := l.sum / l.length

/-- Sample variance with `ddof = 1`, as used by `pandas.std()`. -/
def sampleVarQ (l : List ℚ) : ℚ :=
  let m := meanQ l
  (l.map (fun x => (x - m) ^ 2)).sum / ((l.length : ℚ) - 1)

/-- The trailing rolling window of width `w` ending at row `i` over the column
`f`: values at indices `max 0 (i+1-w), …, i`. -/
def windowList (f : ℕ → ℚ) (w i : ℕ) : List ℚ :=
  ((List.range (i + 1)).drop (i + 1 - w)).map f

/-- `column.rolling(window=w, min_periods=minp).mean()` at row `i`
(`NaN` below `min_periods` modelled as `0`, unreachable for `minp = 1`). -/
def rollingMean (f : ℕ → ℚ) (w minp i : ℕ) : ℚ :=
  let win := windowList f w i
  if minp ≤ win.length then meanQ win else 0

/-- `column.rolling(window=w, min_periods=minp).std().fillna(0)` at row `i`,
with `s` standing for the square root applied to the sample variance. -/
def rollingStd (s : ℚ → ℚ) (f : ℕ → ℚ) (w minp i : ℕ) : ℚ :=
  let win := windowList f w i
  if minp ≤ win.length then s (sampleVarQ win) else 0

/-- One output row of `compute_features_from_df`: the original metrics plus the
ten computed (and clipped) feature columns. -/
structure FeatRow where
  ts : ℤ
  tvl : ℚ
  vol : ℚ
  r0 : ℚ
  r1 : ℚ
  tvl_change_6h : ℚ
  tvl_change_24h : ℚ
  tvl_acceleration : ℚ
  volume_spike_ratio : ℚ
  reserve_imbalance : ℚ
  reserve_imbalance_rate : ℚ
  volatility_6h : ℚ
  volatility_24h : ℚ
  volatility_ratio : ℚ
  early_warning_score : ℚ
  deriving DecidableEq, Repr

/-- Default row used only to totalise list indexing below guards that ensure
it is never reached. -/
def defaultRawRow : RawRow := ⟨0, 0, 0, 0, 0⟩

/-- `AdvancedFeatureEngine.compute_features_from_df` (advanced_features.py,
lines 151-249).  Returns `none` for the `len(df) < MIN_POINTS_6H` early exit
(where the source returns the input frame without feature columns).  Columns
follow the source top to bottom: `pct_change`, lagged differences, rolling
mean/std, the guarded ratio divisions (`np.where`), the early-warning score
computed from the *unclipped* columns, and finally the `clip` calls of lines
234-243. -/
def computeFeaturesFromDf (s : ℚ → ℚ) (rows : List RawRow) : Option (List FeatRow) :=
  if rows.length < 4 then none else
  let df := sortRawByTs rows
  let n := df.length
  let row := fun i => df.getD i defaultRawRow
  let tvl := fun i => (row i).tvl
  let vol := fun i => (row i).vol
  -- df['tvl_return'] = df['tvl'].pct_change().fillna(0)
  let tvlReturn := fun i => if i = 0 then 0 else (tvl i - tvl (i - 1)) / tvl (i - 1)
  -- df['tvl_change_6h'] / df['tvl_change_24h'] = pct_change(periods).fillna(0)
  let c6 := fun i => if i < 6 then 0 else (tvl i - tvl (i - 6)) / tvl (i - 6)
  let c24 := fun i => if i < 24 then 0 else (tvl i - tvl (i - 24)) / tvl (i - 24)
  -- df['tvl_change_6h_lag'] = df['tvl_change_6h'].shift(6).fillna(0)
  let c6lag := fun i => if i < 6 then 0 else c6 (i - 6)
  let accel := fun i => c6 i - c6lag i
  -- df['volume_rolling_avg'] = df['volume_24h'].rolling(24, min_periods=1).mean()
  let rollAvg := fun i => rollingMean vol 24 1 i
  -- np.where(avg > 0, vol / avg, 1.0)
  let vsr := fun i => if 0 < rollAvg i then vol i / rollAvg i else 1
  -- np.where(total > 0, |r0 - r1| / total, 0.0)
  let imb := fun i =>
    if 0 < (row i).r0 + (row i).r1 then |(row i).r0 - (row i).r1| / ((row i).r0 + (row i).r1) else 0
  -- df['reserve_imbalance'].diff(periods=6).fillna(0)
  let imbRate := fun i => if i < 6 then 0 else imb i - imb (i - 6)
  let vol6 := fun i => rollingStd s tvlReturn 6 2 i
  let vol24 := fun i => rollingStd s tvlReturn 24 6 i
  -- np.where(vol24 > 0.001, vol6 / vol24, 1.0)
  let vr := fun i => if 1/1000 < vol24 i then vol6 i / vol24 i else 1
  -- early warning score from the unclipped columns, then the clip block
  let ews := fun i => computeEarlyWarningScore (c6 i) (c24 i) (accel i) (vsr i) (imbRate i) (vr i)
  some <| (List.range n).map fun i =>
    { ts := (row i).ts, tvl := tvl i, vol := vol i, r0 := (row i).r0, r1 := (row i).r1
      tvl_change_6h := clampQ (-1) 1 (c6 i)
      tvl_change_24h := clampQ (-1) 1 (c24 i)
      tvl_acceleration := clampQ (-(1/2)) (1/2) (accel i)
      volume_spike_ratio := clampQ 0 10 (vsr i)
      reserve_imbalance := clampQ 0 1 (imb i)
      reserve_imbalance_rate := clampQ (-(1/2)) (1/2) (imbRate i)
      volatility_6h := clampQ 0 1 (vol6 i)
      volatility_24h := clampQ 0 1 (vol24 i)
      volatility_ratio := clampQ 0 10 (vr i)
      early_warning_score := clampQ 0 100 (ews i) }

/-! ## `model_server.py` — serving-time risk score -/

/-- `round(x, 2)`: two-decimal rounding.  (Python rounds half to even, Mathlib
half up; they agree except at exact `.005` ties, which is immaterial to the
range bounds proved here.) -/
def round2 (x : ℚ) : ℚ := (round (x * 100) : ℤ) / 100

/-- `PredictiveModelServer.predict_risk` score computation (model_server.py,
lines 332-333): `risk_score = round(prob * 100, 2)` where `prob` is the
external classifier's probability. -/
def predictRiskScore (prob : ℚ) : ℚ := round2 (prob * 100)

/-- `PredictiveModelServer.get_risk_level` (model_server.py, lines 305-311). -/
def getRiskLevel (score : ℚ) : String :=
  if score < 30 then "LOW" else if score < 65 then "MEDIUM" else "HIGH"

/-! ## `services/simulation_service.py` -/

/-- The mutable feature dictionary built by
`SimulationService.get_latest_features` and rewritten by `apply_overrides`:
base metrics plus the ten named features, all concrete. -/
structure SimState where
  base_tvl : ℚ
  base_volume : ℚ
  base_r0 : ℚ
  base_r1 : ℚ
  tvl_change_6h : ℚ
  tvl_change_24h : ℚ
  tvl_acceleration : ℚ
  volume_spike_ratio : ℚ
  reserve_imbalance : ℚ
  reserve_imbalance_rate : ℚ
  volatility_6h : ℚ
  volatility_24h : ℚ
  volatility_ratio : ℚ
  early_warning_score : ℚ
  deriving DecidableEq, Repr

/-- `apply_overrides`, TVL block (simulation_service.py, lines 134-160). -/
def applyTvlOverride (st : SimState) (tvl_change_pct : ℚ) : SimState :=
  if tvl_change_pct ≠ 0 then
    let st := { st with base_tvl := max 0 (st.base_tvl * (1 + tvl_change_pct / 100)),
                        tvl_change_6h := tvl_change_pct / 100 }
    if tvl_change_pct < -20 then
      let st := { st with
        tvl_change_24h := min st.tvl_change_24h (tvl_change_pct / 100 * (80/100)),
        tvl_acceleration := tvl_change_pct / 100 * (1/2) }
      let drop_severity := |tvl_change_pct| / 100
      let ews_boost := min 50 (drop_severity * 100)
      { st with early_warning_score := min 100 (st.early_warning_score + ews_boost) }
    else st
  else st

/-- `apply_overrides`, volume block (simulation_service.py, lines 163-183). -/
def applyVolumeOverride (st : SimState) (volume_change_pct : ℚ) : SimState :=
  if volume_change_pct ≠ 0 then
    let st := { st with base_volume := max 0 (st.base_volume * (1 + volume_change_pct / 100)) }
    let st := { st with volume_spike_ratio := st.volume_spike_ratio * (1 + volume_change_pct / 100) }
    let st := { st with volume_spike_ratio := min 10 (max (1/10) st.volume_spike_ratio) }
    if 100 < volume_change_pct then
      let ews_boost := min 30 (volume_change_pct / 10)
      { st with early_warning_score := min 100 (st.early_warning_score + ews_boost) }
    else st
  else st

/-- `apply_overrides`, volatility block (simulation_service.py, lines 186-204). -/
def applyVolatilityOverride (st : SimState) (volatility_override : Option ℚ) : SimState :=
  match volatility_override with
  | none => st
  | some v =>
    let v := max (1/100) (min (1/2) v)
    let st := { st with volatility_6h := v, volatility_24h := v * (80/100) }
    let st :=
      if 1/1000 < st.volatility_24h then
        { st with volatility_ratio := st.volatility_6h / st.volatility_24h }
      else st
    if 15/100 < v then
      let ews_boost := min 25 ((v - 15/100) * 200)
      { st with early_warning_score := min 100 (st.early_warning_score + ews_boost) }
    else st

/-- `apply_overrides`, reserve-imbalance block (simulation_service.py, lines
207-222). -/
def applyImbalanceOverride (st : SimState) (reserve_imbalance_override : Option ℚ) : SimState :=
  match reserve_imbalance_override with
  | none => st
  | some w =>
    let w := max 0 (min 1 w)
    let original := st.reserve_imbalance
    let st := { st with reserve_imbalance := w, reserve_imbalance_rate := w - original }
    if 3/10 < w then
      let ews_boost := min 20 ((w - 3/10) * 50)
      { st with early_warning_score := min 100 (st.early_warning_score + ews_boost) }
    else st

/-- `apply_overrides`, final feature re-bounding (simulation_service.py, lines
225-229). -/
def applyFinalBounds (st : SimState) : SimState :=
  { st with
    tvl_change_6h := max (-1) (min 1 st.tvl_change_6h),
    tvl_change_24h := max (-1) (min 1 st.tvl_change_24h),
    tvl_acceleration := max (-(1/2)) (min (1/2) st.tvl_acceleration),
    reserve_imbalance := max 0 (min 1 st.reserve_imbalance),
    early_warning_score := max 0 (min 100 st.early_warning_score) }

/-- `SimulationService.apply_overrides` (simulation_service.py, lines 107-231):
the four override blocks in source order, then the final re-bounding. -/
def applyOverrides (base : SimState) (tvl_change_pct volume_change_pct : ℚ)
    (volatility_override reserve_imbalance_override : Option ℚ) : SimState :=
  applyFinalBounds
    (applyImbalanceOverride
      (applyVolatilityOverride
        (applyVolumeOverride
          (applyTvlOverride base tvl_change_pct) volume_change_pct)
        volatility_override)
      reserve_imbalance_override)

/-- `SimulationService.predict_with_features` score computation
(simulation_service.py, lines 264-291): the classifier probability scaled to
0-100, the three feature-based boosters, and the final `[0,100]` clamp with
two-decimal rounding. -/
def simulationRiskScore (prob : ℚ) (f : SimState) : ℚ :=
  let ml_risk_score := prob * 100
  let risk_score := ml_risk_score
  let risk_score :=
    if f.tvl_change_6h < -(20/100) ∨ f.tvl_change_24h < -(50/100) then
      let decline_boost := min 30 (|min f.tvl_change_6h f.tvl_change_24h| * 40)
      max risk_score (65 + decline_boost)
    else risk_score
  let risk_score :=
    if f.tvl_acceleration < -(5/100) ∧
        (f.tvl_change_6h < -(10/100) ∨ f.tvl_change_24h < -(20/100)) then
      let accel_boost := min 20 (|f.tvl_acceleration| * 200)
      min 100 (risk_score + accel_boost)
    else risk_score
  let risk_score :=
    if 70 < f.early_warning_score then
      let ews_boost := (f.early_warning_score - 70) * (8/10)
      max risk_score (65 + ews_boost)
    else risk_score
  round2 (max 0 (min 100 risk_score))

/-! ## `routers/risk.py` — `SimulationRequest` boundary validation -/

/-- `SimulationRequest` (risk.py, lines 472-478): the request body of the
`/simulate` endpoint. -/
structure SimulationRequest where
  pool_id : String
  tvl_change_pct : ℚ := 0
  volume_change_pct : ℚ := 0
  volatility_override : Option ℚ := none
  reserve_imbalance_override : Option ℚ := none
  deriving DecidableEq, Repr

/-- The pydantic `Field(ge=…, le=…)` constraints of `SimulationRequest`:
a request outside them is rejected with a validation failure (HTTP 422)
before `run_simulation` is invoked. -/
def validSimulationRequest (r : SimulationRequest) : Bool :=
  (-80 ≤ r.tvl_change_pct && r.tvl_change_pct ≤ 80) &&
  (-100 ≤ r.volume_change_pct && r.volume_change_pct ≤ 200) &&
  (match r.volatility_override with
   | none => true
   | some v => 1/100 ≤ v && v ≤ 1/2) &&
  (match r.reserve_imbalance_override with
   | none => true
   | some v => 0 ≤ v && v ≤ 1)

/-! ## `model_trainer.py` — forward labels and the time-aware split -/

/-- `PredictiveModelTrainer` horizon constant (model_trainer.py, line 50). -/
def HORIZON_6H : ℕ := 6

/-- `PredictiveModelTrainer` horizon constant (model_trainer.py, line 51). -/
def HORIZON_24H : ℕ := 24

/-- `PredictiveModelTrainer` crash threshold (model_trainer.py, line 54). -/
def CRASH_THRESHOLD_6H : ℚ := 10/100

/-- `PredictiveModelTrainer` crash threshold (model_trainer.py, line 55). -/
def CRASH_THRESHOLD_24H : ℚ := 20/100

/-- The forward label of row `i` of one pool's TVL series, from the inner loop
of `PredictiveModelTrainer.create_forward_labels` (model_trainer.py, lines
137-152): rows with at least `horizon` rows after them get `1` when the TVL is
positive and the forward return drops below `-threshold`, else `0`; the final
`horizon` rows get `NaN`, modelled as `none`. -/
def forwardLabel (tvl : List ℚ) (horizon : ℕ) (threshold : ℚ) (i : ℕ) : Option ℚ :=
  if i + horizon < tvl.length then
    let current_tvl := tvl.getD i 0
    let future_tvl := tvl.getD (i + horizon) 0
    some (if 0 < current_tvl ∧ (future_tvl - current_tvl) / current_tvl < -threshold
          then 1 else 0)
  else none

/-- The label column for one pool's series. -/
def forwardLabelCol (tvl : List ℚ) (horizon : ℕ) (threshold : ℚ) : List (Option ℚ) :=
  (List.range tvl.length).map (forwardLabel tvl horizon threshold)

/-- Indices of one pool's rows that survive the
`df[df['label_24h'].notna()]` drop at the end of `create_forward_labels`
(model_trainer.py, lines 156-158): exactly those with a non-`NaN` 24h label. -/
def keptRowIndices (tvl : List ℚ) : List ℕ :=
  (List.range tvl.length).filter
    (fun i => (forwardLabel tvl HORIZON_24H CRASH_THRESHOLD_24H i).isSome)

/-- One row of the training DataFrame assembled by
`PredictiveModelTrainer.load_training_data` (model_trainer.py, lines 74-83). -/
structure TrainRow where
  pool : String
  ts : ℤ
  tvl : ℚ
  reserve0 : ℚ
  reserve1 : ℚ
  volume_24h : ℚ
  deriving DecidableEq, Repr

/-- Default row used only to totalise positional indexing under guards. -/
def defaultTrainRow : TrainRow := ⟨"", 0, 0, 0, 0, 0⟩

/-- Lexicographic comparison of strings by character code (the standard
string order, written out structurally). -/
def charListLt : List Char → List Char → Bool
  | [], [] => false
  | [], _ :: _ => true
  | _ :: _, [] => false
  | c :: cs, d :: ds =>
    if c.toNat < d.toNat then true
    else if d.toNat < c.toNat then false
    else charListLt cs ds

/-- Lexicographic `(pool_id, timestamp)` order used by
`df.sort_values(['pool_id', 'timestamp'])` (model_trainer.py, line 92). -/
def lexLe (a b : TrainRow) : Bool :=
  charListLt a.pool.data b.pool.data || (a.pool == b.pool && decide (a.ts ≤ b.ts))

/-- Stable insertion for the lexicographic sort. -/
def insertLex (a : TrainRow) : List TrainRow → List TrainRow
  | [] => [a]
  | b :: l => if lexLe a b then a :: b :: l else b :: insertLex a l

/-- `df.sort_values(['pool_id', 'timestamp'])` as a stable insertion sort. -/
def sortLex (l : List TrainRow) : List TrainRow := l.foldr insertLex []

/-- The 24h label attached to each row of the full DataFrame by
`create_forward_labels`: row `i`'s label is the forward label of its pool's
TVL series (the rows selected by `df['pool_id'] == pool`, in DataFrame order)
at row `i`'s position within that series. -/
def dfLabel24 (df : List TrainRow) : List (TrainRow × Option ℚ) :=
  (List.range df.length).map fun i =>
    let r := df.getD i defaultTrainRow
    let poolTvl := (df.filter (fun x => x.pool == r.pool)).map (·.tvl)
    let pos := ((List.range i).filter
      (fun j => (df.getD j defaultTrainRow).pool == r.pool)).length
    (r, forwardLabel poolTvl HORIZON_24H CRASH_THRESHOLD_24H pos)

/-- `create_forward_labels` at DataFrame level: label every row, then drop the
rows whose `label_24h` is `NaN` (model_trainer.py, lines 156-158).  (The
`label_6h` column is computed the same way but does not affect row retention.) -/
def createForwardLabelsDf (df : List TrainRow) : List (TrainRow × Option ℚ) :=
  (dfLabel24 df).filter (fun p => p.2.isSome)

/-- First-occurrence deduplication with the set of already-seen values. -/
def firstOccurAux (seen : List String) : List String → List String
  | [] => []
  | a :: l => if a ∈ seen then firstOccurAux seen l else a :: firstOccurAux (a :: seen) l

/-- First-occurrence deduplication, as `pandas.Series.unique()` used by
`for pool_id in df['pool_id'].unique()` (model_trainer.py, line 188). -/
def firstOccur (l : List String) : List String := firstOccurAux [] l

/-- Stable insertion of a labeled row into a list sorted by ascending
timestamp. -/
def insertPairByTs (a : TrainRow × Option ℚ) :
    List (TrainRow × Option ℚ) → List (TrainRow × Option ℚ)
  | [] => [a]
  | b :: l => if a.1.ts ≤ b.1.ts then a :: b :: l else b :: insertPairByTs a l

/-- The per-pool `df.sort_values('timestamp')` performed inside
`compute_features_from_df` (advanced_features.py, line 171), on labeled rows. -/
def sortPairsByTs (l : List (TrainRow × Option ℚ)) : List (TrainRow × Option ℚ) :=
  l.foldr insertPairByTs []

/-- Row order produced by `PredictiveModelTrainer.compute_features`
(model_trainer.py, lines 186-193): for each pool in first-occurrence order,
that pool's rows sorted by timestamp, concatenated (`pd.concat`).  Feature
columns are value-only additions and do not move rows. -/
def computeFeaturesOrder (rows : List (TrainRow × Option ℚ)) :
    List (TrainRow × Option ℚ) :=
  (firstOccur (rows.map (·.1.pool))).flatMap
    fun p => sortPairsByTs (rows.filter (fun r => r.1.pool == p))

/-- `split_idx = int(len(X) * train_ratio)` with `train_ratio = 0.8`
(model_trainer.py, line 242); over floats this equals `⌊4n/5⌋` for every
dataset size representable in double precision. -/
def splitIdx (n : ℕ) : ℕ := 4 * n / 5

/-- The full training pipeline order: `load_training_data`'s sort, forward
labelling with the `NaN`-label drop, per-pool feature grouping, and the
time-aware prefix/suffix split `X.iloc[:split_idx] / X.iloc[split_idx:]`
(model_trainer.py, lines 241-245). -/
def pipelineSplit (snapshots : List TrainRow) :
    List (TrainRow × Option ℚ) × List (TrainRow × Option ℚ) :=
  let df := sortLex snapshots
  let labeled := createForwardLabelsDf df
  let featured := computeFeaturesOrder labeled
  (featured.take (splitIdx featured.length), featured.drop (splitIdx featured.length))

/-! ## `services/risk_evaluator.py` — the alert engine -/

/-- One `Alert` row (spec §3; `db_models/alert.py` is not in the source tree,
its fields are read off `RiskEvaluator.create_alert`).  The human-readable
`message` is kept, with numeric interpolations elided. -/
structure AlertRow where
  pool_id : String
  alert_type : String
  risk_score : ℚ
  risk_level : String
  message : String
  top_reasons : List String
  status : String
  previous_risk_level : Option String
  previous_risk_score : Option ℚ
  created_at : ℤ
  deriving DecidableEq, Repr

/-- The current-risk dictionary consumed by `evaluate_alerts_for_pool`
(risk_evaluator.py, lines 262-265), after its `.get` defaults. -/
structure RiskInput where
  risk_score : ℚ
  risk_level : String
  early_warning_score : Option ℚ
  top_reasons : List String
  deriving DecidableEq, Repr

/-- The previous `RiskHistory` record as used by the escalation and spike
rules (risk_evaluator.py, lines 308-349). -/
structure PrevRisk where
  risk_score : ℚ
  risk_level : String
  deriving DecidableEq, Repr

/-- Modelled from the spec: `db_models/alert.py` (the `AlertType` enum) is not
in the source tree; spec §4.3 names the four rule types.  The code refers to
them as `AlertType.HIGH_RISK_ALERT`, `AlertType.EARLY_WARNING_ALERT`,
`AlertType.RISK_ESCALATION_ALERT` and `AlertType.RISK_SPIKE`. -/
def alertTypes : List String :=
  ["HIGH_RISK_ALERT", "EARLY_WARNING_ALERT", "RISK_ESCALATION_ALERT", "RISK_SPIKE"]

/-- Modelled from the spec: `ALERT_THRESHOLDS['high_risk_score']` (spec §4.3
rule 1: `risk_score >= 65`). -/
def highRiskThreshold : ℚ := 65

/-- Modelled from the spec: `ALERT_THRESHOLDS['early_warning_score']` (spec
§4.3 rule 2: `early_warning_score >= 40`). -/
def earlyWarningThreshold : ℚ := 40

/-- Modelled from the spec: `ALERT_THRESHOLDS['escalation_transitions']` (spec
§4.3 rule 3: LOW→MEDIUM, LOW→HIGH, MEDIUM→HIGH; HIGH→HIGH and downgrades never
trigger). -/
def escalationTransitions : List (String × String) :=
  [("LOW", "MEDIUM"), ("LOW", "HIGH"), ("MEDIUM", "HIGH")]

/-- `ALERT_THRESHOLDS.get('risk_spike_delta', 30)` (risk_evaluator.py, line
332; the default applies, spec §4.3 rule 4). -/
def riskSpikeDelta : ℚ := 30

/-- `RiskEvaluator.has_recent_alert` (risk_evaluator.py, lines 157-187): an
active alert of the same type for the same pool with
`created_at >= now - hours`. -/
def hasRecentAlert (store : List AlertRow) (pool ty : String) (now : ℤ)
    (hours : ℤ) : Bool :=
  store.any fun a =>
    a.pool_id == pool && a.alert_type == ty && a.status == "active" &&
      decide (now - hours * 60 ≤ a.created_at)

/-- `RiskEvaluator.create_alert` (risk_evaluator.py, lines 189-242): a fresh
`active` alert stamped `created_at = now`. -/
def createAlert (pool ty : String) (risk : RiskInput) (message : String)
    (prevLevel : Option String) (prevScore : Option ℚ) (now : ℤ) : AlertRow where
  pool_id := pool
  alert_type := ty
  risk_score := risk.risk_score
  risk_level := risk.risk_level
  message := message
  top_reasons := risk.top_reasons
  status := "active"
  previous_risk_level := prevLevel
  previous_risk_score := prevScore
  created_at := now

/-- One rule step of `evaluate_alerts_for_pool`: when the rule condition holds
and no recent duplicate exists, store the alert (the evaluator commits each
alert before evaluating the next rule) and add it to the cycle's output. -/
def runRule (pool ty : String) (cond : Bool) (a : AlertRow) (now : ℤ)
    (st : List AlertRow × List AlertRow) : List AlertRow × List AlertRow :=
  if cond && !(hasRecentAlert st.2 pool ty now 1) then
    (st.1 ++ [a], st.2 ++ [a])
  else st

/-- `RiskEvaluator.evaluate_alerts_for_pool` (risk_evaluator.py, lines
244-351): the four rules in source order, threaded through the alert store.
Returns `(alerts generated this cycle, new store)`.  Rule 2's guard mirrors
Python truthiness: `if early_warning and early_warning >= 40`, then
`risk_score >= 20`. -/
def evaluateAlertsForPool (pool : String) (risk : RiskInput)
    (previous : Option PrevRisk) (store : List AlertRow) (now : ℤ) :
    List AlertRow × List AlertRow :=
  let st := (([] : List AlertRow), store)
  -- 1. HIGH_RISK_ALERT
  let st := runRule pool "HIGH_RISK_ALERT"
    (decide (highRiskThreshold ≤ risk.risk_score))
    (createAlert pool "HIGH_RISK_ALERT" risk
      ("High risk detected for " ++ pool) none none now) now st
  -- 2. EARLY_WARNING_ALERT
  let ewsCond : Bool :=
    match risk.early_warning_score with
    | none => false
    | some v => decide (v ≠ 0) && decide (earlyWarningThreshold ≤ v) &&
        decide ((20 : ℚ) ≤ risk.risk_score)
  let st := runRule pool "EARLY_WARNING_ALERT" ewsCond
    (createAlert pool "EARLY_WARNING_ALERT" risk
      ("Early warning signal for " ++ pool) none none now) now st
  -- 3. RISK_ESCALATION_ALERT
  let st :=
    match previous with
    | none => st
    | some prev =>
      runRule pool "RISK_ESCALATION_ALERT"
        (escalationTransitions.contains (prev.risk_level, risk.risk_level))
        (createAlert pool "RISK_ESCALATION_ALERT" risk
          ("Risk level escalated for " ++ pool ++ ": " ++ prev.risk_level ++
            " to " ++ risk.risk_level)
          (some prev.risk_level) (some prev.risk_score) now) now st
  -- 4. RISK_SPIKE
  let st :=
    match previous with
    | none => st
    | some prev =>
      runRule pool "RISK_SPIKE"
        (decide (riskSpikeDelta ≤ risk.risk_score - prev.risk_score))
        (createAlert pool "RISK_SPIKE" risk
          ("Sudden risk spike detected for " ++ pool)
          (some prev.risk_level) (some prev.risk_score) now) now st
  st

/-- The rule-trigger condition of each alert type, read off the four `if`
guards of `evaluate_alerts_for_pool`. -/
def ruleCondition (ty : String) (risk : RiskInput) (previous : Option PrevRisk) : Bool :=
  if ty = "HIGH_RISK_ALERT" then decide (highRiskThreshold ≤ risk.risk_score)
  else if ty = "EARLY_WARNING_ALERT" then
    match risk.early_warning_score with
    | none => false
    | some v => decide (v ≠ 0) && decide (earlyWarningThreshold ≤ v) &&
        decide ((20 : ℚ) ≤ risk.risk_score)
  else if ty = "RISK_ESCALATION_ALERT" then
    match previous with
    | none => false
    | some prev => escalationTransitions.contains (prev.risk_level, risk.risk_level)
  else if ty = "RISK_SPIKE" then
    match previous with
    | none => false
    | some prev => decide (riskSpikeDelta ≤ risk.risk_score - prev.risk_score)
  else false

/-- Number of alerts for a given pool and type in a list. -/
def countAlerts (l : List AlertRow) (pool ty : String) : ℕ :=
  (l.filter (fun a => a.pool_id == pool && a.alert_type == ty)).length

/-! ## `jobs/hourly_snapshot.py` — idempotent hourly upsert -/

/-- One `snapshot_history` row (db_models/snapshot_history.py, lines 36-70):
metric columns are nullable. -/
structure SnapshotHistoryRow where
  pool_id : String
  ts : ℤ
  tvl : Option ℚ
  volume_24h : Option ℚ
  reserve0 : Option ℚ
  reserve1 : Option ℚ
  source : String
  deriving DecidableEq, Repr

/-- The upsert of `HourlySnapshotCollector.collect_hourly_snapshot`
(hourly_snapshot.py, lines 122-144): find the first existing row with the same
`(pool_id, timestamp)` key and overwrite its metric columns, otherwise append
the new row. -/
def upsertSnapshot (r : SnapshotHistoryRow) :
    List SnapshotHistoryRow → List SnapshotHistoryRow
  | [] => [r]
  | s :: rest =>
    if s.pool_id = r.pool_id ∧ s.ts = r.ts then
      { s with tvl := r.tvl, volume_24h := r.volume_24h, reserve0 := r.reserve0,
               reserve1 := r.reserve1, source := r.source } :: rest
    else s :: upsertSnapshot r rest

/-- Rows matching one `(pool_id, hour)` key. -/
def countKey (store : List SnapshotHistoryRow) (p : String) (h : ℤ) : ℕ :=
  (store.filter (fun s => decide (s.pool_id = p ∧ s.ts = h))).length

/-! ## `features/basic_timeseries.py` — the online feature engine -/

/-- `_round_to_hour` (basic_timeseries.py, lines 302-304):
`dt.replace(minute=0, second=0, microsecond=0)`, i.e. the floor to the hour,
over minutes-valued instants. -/
def roundToHour (t : ℤ) : ℤ := t - t % 60

/-- Stable insertion for the most-recent-first ordering of `_get_history`. -/
def insertDescByTs (a : SnapshotHistoryRow) :
    List SnapshotHistoryRow → List SnapshotHistoryRow
  | [] => [a]
  | b :: l => if b.ts ≤ a.ts then a :: b :: l else b :: insertDescByTs a l

/-- `order_by(desc(SnapshotHistory.timestamp))`. -/
def sortDescByTs (l : List SnapshotHistoryRow) : List SnapshotHistoryRow :=
  l.foldr insertDescByTs []

/-- `TimeSeriesFeatureEngine._get_history` (basic_timeseries.py, lines
273-300): the pool's rows with `start_time <= timestamp <= as_of` where
`start_time = as_of - hours`, most recent first. -/
def getHistory (pool : String) (hours : ℤ) (asOf : ℤ)
    (store : List SnapshotHistoryRow) : List SnapshotHistoryRow :=
  let start_time := asOf - 60 * hours
  sortDescByTs (store.filter
    (fun r => decide (r.pool_id = pool ∧ start_time ≤ r.ts ∧ r.ts ≤ asOf)))

/-- `TimeSeriesFeatures` (basic_timeseries.py, lines 41-72). -/
structure TimeSeriesFeatures where
  pool_id : String
  timestamp : ℤ
  tvl_pct_change_6h : Option ℚ := none
  tvl_pct_change_24h : Option ℚ := none
  tvl_acceleration : Option ℚ := none
  volume_spike_ratio : Option ℚ := none
  reserve_imbalance : Option ℚ := none
  data_points_available : ℕ := 0
  sufficient_data : Bool := false
  warnings : List String := []
  deriving DecidableEq, Repr

/-- `_compute_tvl_pct_change` (basic_timeseries.py, lines 306-348).  `history`
is most recent first.  `.error ()` models the `TypeError` Python raises when
`history[0].tvl` is `None` and a usable past TVL was found (the source
subtracts `None - float`); every other path is total. -/
def computeTvlPctChange (history : List SnapshotHistoryRow) (hours : ℤ) :
    Except Unit (Option ℚ) :=
  if history.length < 2 then .ok none else
  match history.head? with
  | none => .ok none
  | some h0 =>
    let target_time := h0.ts - 60 * hours
    let found := history.find? (fun snap => decide (snap.ts ≤ target_time))
    -- fall back to the oldest point when no at-or-before match exists or its
    -- TVL is null/zero
    let past : Option SnapshotHistoryRow :=
      match found with
      | none => history.getLast?
      | some snap =>
        if snap.tvl = none ∨ snap.tvl = some 0 then history.getLast? else some snap
    match past with
    | none => .ok none
    | some past_snapshot =>
      match past_snapshot.tvl with
      | none => .ok none
      | some past_tvl =>
        if past_tvl = 0 then .ok none
        else
          match h0.tvl with
          | none => .error ()   -- TypeError: None - float
          | some current_tvl =>
            .ok (some (clampQ (-1) 10 ((current_tvl - past_tvl) / past_tvl)))

/-- `_compute_tvl_acceleration` (basic_timeseries.py, lines 350-380).
`history[0]`, `history[3]`, `history[6]` with Python-truthiness fallbacks
(`x.tvl if x.tvl else fallback`); the inner `if mid else 0` ternaries are
redundant under the zero guard. -/
def computeTvlAcceleration (history : List SnapshotHistoryRow) : Option ℚ :=
  match history with
  | h0 :: _ :: _ :: h3 :: _ :: _ :: h6 :: _ =>
    let recent_tvl := pyOr h0.tvl 0
    let mid_tvl := pyOr h3.tvl recent_tvl
    let older_tvl := pyOr h6.tvl mid_tvl
    if mid_tvl = 0 ∨ older_tvl = 0 then none
    else
      let recent_change := (recent_tvl - mid_tvl) / mid_tvl
      let older_change := (mid_tvl - older_tvl) / older_tvl
      some (clampQ (-1) 1 (recent_change - older_change))
  | _ => none   -- len(history) < 7

/-- `_compute_volume_spike_ratio` (basic_timeseries.py, lines 382-415). -/
def computeVolumeSpikeRatio (history : List SnapshotHistoryRow) : Option ℚ :=
  if history.length < 2 then none else
  match history.head? with
  | none => none
  | some h0 =>
    match h0.volume_24h with
    | none => none
    | some current_volume =>
      let volumes := history.filterMap fun s =>
        match s.volume_24h with
        | some v => if 0 < v then some v else none
        | none => none
      if volumes.length = 0 then none
      else
        let avg_volume := volumes.sum / volumes.length
        if avg_volume = 0 then none
        else some (clampQ 0 100 (current_volume / avg_volume))

/-- `_compute_reserve_imbalance` (basic_timeseries.py, lines 417-440). -/
def computeReserveImbalance (reserve0 reserve1 : Option ℚ) : Option ℚ :=
  match reserve0, reserve1 with
  | some r0, some r1 =>
    let total := r0 + r1
    if total = 0 then none else some (|r0 - r1| / total)
  | _, _ => none

/-- The body of `TimeSeriesFeatureEngine.compute_features` after the history
fetch (basic_timeseries.py, lines 186-235): data-quality gating, the five
signals, and the warning strings. -/
def computeFeaturesFromHistory (pool : String) (asOf : ℤ)
    (history : List SnapshotHistoryRow) : Except Unit TimeSeriesFeatures :=
  let n := history.length
  if n < 4 then
    .ok { pool_id := pool, timestamp := asOf, data_points_available := n,
          sufficient_data := false,
          warnings := [s!"Insufficient data: {n} points (need 4)"] }
  else do
    let pct6 ← computeTvlPctChange history 6
    let pct24 ← computeTvlPctChange history 24
    let accel := computeTvlAcceleration history
    let vsr := computeVolumeSpikeRatio history
    let imb :=
      match history.head? with
      | none => none
      | some latest => computeReserveImbalance latest.reserve0 latest.reserve1
    let warnings :=
      (if pct6 = none then ["Could not compute 6h TVL change"] else []) ++
      (if pct24 = none then ["Could not compute 24h TVL change"] else []) ++
      (if vsr = none then ["Could not compute volume spike ratio"] else [])
    .ok { pool_id := pool, timestamp := asOf,
          tvl_pct_change_6h := pct6, tvl_pct_change_24h := pct24,
          tvl_acceleration := accel, volume_spike_ratio := vsr,
          reserve_imbalance := imb,
          data_points_available := n,
          sufficient_data := decide (18 ≤ n),
          warnings := warnings }

/-- `TimeSeriesFeatureEngine.compute_features` (basic_timeseries.py, lines
169-235): floor the instant to the hour, fetch the trailing 24h window from
the store, compute the snapshot. -/
def computeFeatures (pool : String) (t : ℤ) (store : List SnapshotHistoryRow) :
    Except Unit TimeSeriesFeatures :=
  let as_of := roundToHour t
  computeFeaturesFromHistory pool as_of (getHistory pool 24 as_of store)

/-! ## Helper lemmas -/

theorem le_clampQ (lo hi x : ℚ) : lo ≤ clampQ lo hi x := le_max_left _ _

theorem clampQ_le (lo hi x : ℚ) (h : lo ≤ hi) : clampQ lo hi x ≤ hi :=
  max_le h (min_le_left _ _)

theorem roundMonoQ {a b : ℚ} (h : a ≤ b) : round a ≤ round b := by
  rw [round_eq, round_eq]
  exact Int.floor_le_floor (by linarith)

theorem round2_bounds {x : ℚ} (h0 : 0 ≤ x) (h1 : x ≤ 100) :
    0 ≤ round2 x ∧ round2 x ≤ 100 := by
  unfold round2
  have hl : (0 : ℤ) ≤ round (x * 100) := by
    have := roundMonoQ (a := 0) (b := x * 100) (by linarith)
    simpa using this
  have hu : round (x * 100) ≤ 10000 := by
    have := roundMonoQ (a := x * 100) (b := 10000) (by linarith)
    simpa using this
  constructor
  · exact div_nonneg (by exact_mod_cast hl) (by norm_num)
  · rw [div_le_iff₀ (by norm_num : (0:ℚ) < 100)]
    calc ((round (x * 100) : ℤ) : ℚ) ≤ ((10000 : ℤ) : ℚ) := by exact_mod_cast hu
    _ = 100 * 100 := by norm_num

theorem pyOr_ne_of_ne {x : Option ℚ} {d : ℚ} (hd : d ≠ 0) : pyOr x d ≠ 0 := by
  cases x with
  | none => simpa [pyOr] using hd
  | some v =>
    by_cases hv : v = 0 <;> simp [pyOr, hv, hd]

/-! ## C10 — truthiness substitution in `PredictiveFeatures.to_dict` -/

/-- C10: `PredictiveFeatures.to_dict` (and hence `get_feature_vector`, the
vector handed to the Scorer) substitutes the neutral default whenever a stored
feature value is `None` or exactly `0.0`, because substitution uses Python
truthiness: a computed `volume_spike_ratio` of `0` is replaced by `1.0`, a
`volatility_ratio` of `0` by `1.0`, and an `early_warning_score` clamped to
exactly `0` by `50.0`; the Scorer therefore never receives a zero
early-warning score or zero ratio. -/
theorem to_dict_truthiness_defaults (f : PredictiveFeatures) :
    ((f.volume_spike_ratio = none ∨ f.volume_spike_ratio = some 0) →
      f.to_dict.volume_spike_ratio = 1) ∧
    ((f.volatility_ratio = none ∨ f.volatility_ratio = some 0) →
      f.to_dict.volatility_ratio = 1) ∧
    ((f.early_warning_score = none ∨ f.early_warning_score = some 0) →
      f.to_dict.early_warning_score = 50) ∧
    f.to_dict.volume_spike_ratio ≠ 0 ∧
    f.to_dict.volatility_ratio ≠ 0 ∧
    f.to_dict.early_warning_score ≠ 0 ∧
    f.get_feature_vector.getD 3 0 = f.to_dict.volume_spike_ratio ∧
    f.get_feature_vector.getD 8 0 = f.to_dict.volatility_ratio ∧
    f.get_feature_vector.getD 9 0 = f.to_dict.early_warning_score := by
  refine ⟨?_, ?_, ?_, ?_, ?_, ?_, rfl, rfl, rfl⟩
  · rintro (h | h) <;> simp [PredictiveFeatures.to_dict, h, pyOr]
  · rintro (h | h) <;> simp [PredictiveFeatures.to_dict, h, pyOr]
  · rintro (h | h) <;> simp [PredictiveFeatures.to_dict, h, pyOr]
  · exact pyOr_ne_of_ne (by norm_num)
  · exact pyOr_ne_of_ne (by norm_num)
  · exact pyOr_ne_of_ne (by norm_num)

/-- Witness for C10 at a concrete snapshot whose spike ratio, volatility ratio
and early-warning score are the degenerate stored values. -/
theorem to_dict_truthiness_defaults_witness :
    (PredictiveFeatures.to_dict
      { volume_spike_ratio := some 0, volatility_ratio := none,
        early_warning_score := some 0 }).volume_spike_ratio = 1 ∧
    (PredictiveFeatures.to_dict
      { volume_spike_ratio := some 0, volatility_ratio := none,
        early_warning_score := some 0 }).volatility_ratio = 1 ∧
    (PredictiveFeatures.to_dict
      { volume_spike_ratio := some 0, volatility_ratio := none,
        early_warning_score := some 0 }).early_warning_score = 50 := by
  refine ⟨?_, ?_, ?_⟩
  · exact (to_dict_truthiness_defaults _).1 (Or.inr rfl)
  · exact (to_dict_truthiness_defaults _).2.1 (Or.inl rfl)
  · exact (to_dict_truthiness_defaults _).2.2.1 (Or.inr rfl)

/-! ## C4 — the early-warning score formula -/

/-- C4: for every input row, the early-warning score equals 50 plus the six
weighted contributions `-tvl_change_6h*100*0.15`, `-tvl_change_24h*100*0.20`,
`-tvl_acceleration*100*0.20`, `max(volume_spike_ratio-1,0)*10*0.15`,
`reserve_imbalance_rate*100*0.10` and `max(volatility_ratio-1,0)*10*0.20`,
with the final value clamped to `[0, 100]`. -/
theorem early_warning_score_formula (tvl6 tvl24 accel vsr imbRate volRatio : ℚ) :
    computeEarlyWarningScore tvl6 tvl24 accel vsr imbRate volRatio =
      clampQ 0 100 (50
        + (-tvl6) * 100 * (15/100)
        + (-tvl24) * 100 * (20/100)
        + (-accel) * 100 * (20/100)
        + max (vsr - 1) 0 * 10 * (15/100)
        + imbRate * 100 * (10/100)
        + max (volRatio - 1) 0 * 10 * (20/100)) := by
  unfold computeEarlyWarningScore EWS_WEIGHTS
  norm_num

/-! ## C8 — output bounds -/

/-- C8: output-bound invariants — every row produced by the batch feature
engine has `reserve_imbalance ∈ [0,1]` and `early_warning_score ∈ [0,100]`
(for every square-root realisation `s`), the live-serving risk score
`round(prob*100, 2)` lies in `[0,100]` for every classifier probability in
`[0,1]`, and the simulation risk score lies in `[0,100]` for all inputs. -/
theorem output_bounds :
    (∀ (s : ℚ → ℚ) (rows : List RawRow) (out : List FeatRow),
        computeFeaturesFromDf s rows = some out →
        ∀ r ∈ out,
          (0 ≤ r.reserve_imbalance ∧ r.reserve_imbalance ≤ 1) ∧
          (0 ≤ r.early_warning_score ∧ r.early_warning_score ≤ 100)) ∧
    (∀ prob : ℚ, 0 ≤ prob → prob ≤ 1 →
        0 ≤ predictRiskScore prob ∧ predictRiskScore prob ≤ 100) ∧
    (∀ (prob : ℚ) (f : SimState),
        0 ≤ simulationRiskScore prob f ∧ simulationRiskScore prob f ≤ 100) := by
  refine ⟨?_, ?_, ?_⟩
  · intro s rows out h r hr
    unfold computeFeaturesFromDf at h
    split at h
    · cases h
    · injection h with h
      subst h
      obtain ⟨i, _, rfl⟩ := List.mem_map.mp hr
      exact ⟨⟨le_clampQ _ _ _, clampQ_le _ _ _ (by norm_num)⟩,
             le_clampQ _ _ _, clampQ_le _ _ _ (by norm_num)⟩
  · intro prob h0 h1
    unfold predictRiskScore
    exact round2_bounds (by nlinarith) (by nlinarith)
  · intro prob f
    unfold simulationRiskScore
    exact round2_bounds (le_max_left _ _) (max_le (by norm_num) (min_le_left _ _))

/-- A constant-metric four-row series used to instantiate the bound
theorems. -/
def demoRawRows : List RawRow :=
  [⟨0, 100, 10, 50, 50⟩, ⟨1, 100, 10, 50, 50⟩, ⟨2, 100, 10, 50, 50⟩, ⟨3, 100, 10, 50, 50⟩]

/-- Default `FeatRow` used only for total indexing in witnesses. -/
def defaultFeatRow : FeatRow := ⟨0, 0, 0, 0, 0, 0, 0, 0, 0, 0, 0, 0, 0, 0, 0⟩

/-- The feature table of `demoRawRows` under the trivial square root. -/
def demoFeatOut : List FeatRow :=
  (computeFeaturesFromDf (fun _ => 0) demoRawRows).getD []

/-- A zeroed simulation state used to instantiate the bound theorems. -/
def demoSimState : SimState := ⟨0, 0, 0, 0, 0, 0, 0, 0, 0, 0, 0, 0, 0, 0⟩

/-- Witness for C8 at concrete inputs. -/
theorem output_bounds_witness :
    ((0 ≤ (demoFeatOut.getD 0 defaultFeatRow).reserve_imbalance ∧
      (demoFeatOut.getD 0 defaultFeatRow).reserve_imbalance ≤ 1) ∧
     (0 ≤ (demoFeatOut.getD 0 defaultFeatRow).early_warning_score ∧
      (demoFeatOut.getD 0 defaultFeatRow).early_warning_score ≤ 100)) ∧
    (0 ≤ predictRiskScore (1/2) ∧ predictRiskScore (1/2) ≤ 100) ∧
    (0 ≤ simulationRiskScore (1/2) demoSimState ∧
     simulationRiskScore (1/2) demoSimState ≤ 100) :=
  ⟨output_bounds.1 (fun _ => 0) demoRawRows demoFeatOut rfl _
    (by rw [List.getD_eq_getElem _ _ (by decide)]; exact List.getElem_mem (by decide)),
   output_bounds.2.1 (1/2) (by norm_num) (by norm_num),
   output_bounds.2.2 (1/2) demoSimState⟩

/-! ## C9 — simulation overrides: boundary rejection, no silent clamping -/

theorem applyTvlOverride_tvl6 (st : SimState) (pct : ℚ) :
    (applyTvlOverride st pct).tvl_change_6h =
      if pct ≠ 0 then pct / 100 else st.tvl_change_6h := by
  unfold applyTvlOverride
  split_ifs <;> rfl

theorem applyTvlOverride_keeps (st : SimState) (pct : ℚ) :
    (applyTvlOverride st pct).volatility_6h = st.volatility_6h ∧
    (applyTvlOverride st pct).volatility_24h = st.volatility_24h ∧
    (applyTvlOverride st pct).reserve_imbalance = st.reserve_imbalance := by
  unfold applyTvlOverride
  split_ifs <;> exact ⟨rfl, rfl, rfl⟩

theorem applyVolumeOverride_keeps (st : SimState) (pct : ℚ) :
    (applyVolumeOverride st pct).tvl_change_6h = st.tvl_change_6h ∧
    (applyVolumeOverride st pct).volatility_6h = st.volatility_6h ∧
    (applyVolumeOverride st pct).volatility_24h = st.volatility_24h ∧
    (applyVolumeOverride st pct).reserve_imbalance = st.reserve_imbalance := by
  unfold applyVolumeOverride
  split_ifs <;> exact ⟨rfl, rfl, rfl, rfl⟩

theorem applyVolatilityOverride_some (st : SimState) (v : ℚ) :
    (applyVolatilityOverride st (some v)).volatility_6h = max (1/100) (min (1/2) v) ∧
    (applyVolatilityOverride st (some v)).volatility_24h =
      max (1/100) (min (1/2) v) * (80/100) := by
  dsimp only [applyVolatilityOverride]
  split_ifs <;> exact ⟨rfl, rfl⟩

theorem applyVolatilityOverride_keeps (st : SimState) (o : Option ℚ) :
    (applyVolatilityOverride st o).tvl_change_6h = st.tvl_change_6h ∧
    (applyVolatilityOverride st o).reserve_imbalance = st.reserve_imbalance := by
  cases o with
  | none => exact ⟨rfl, rfl⟩
  | some v =>
    dsimp only [applyVolatilityOverride]
    split_ifs <;> exact ⟨rfl, rfl⟩

theorem applyImbalanceOverride_some (st : SimState) (w : ℚ) :
    (applyImbalanceOverride st (some w)).reserve_imbalance = max 0 (min 1 w) := by
  dsimp only [applyImbalanceOverride]
  split_ifs <;> rfl

theorem applyImbalanceOverride_keeps (st : SimState) (o : Option ℚ) :
    (applyImbalanceOverride st o).tvl_change_6h = st.tvl_change_6h ∧
    (applyImbalanceOverride st o).volatility_6h = st.volatility_6h ∧
    (applyImbalanceOverride st o).volatility_24h = st.volatility_24h := by
  cases o with
  | none => exact ⟨rfl, rfl, rfl⟩
  | some w =>
    dsimp only [applyImbalanceOverride]
    split_ifs <;> exact ⟨rfl, rfl, rfl⟩

/-- C9: a simulation override outside its documented bounds
(`tvl_change_pct ∉ [-80,80]`, `volume_change_pct ∉ [-100,200]`,
`volatility_override ∉ [0.01,0.5]`, `reserve_imbalance_override ∉ [0,1]`)
fails the `SimulationRequest` boundary validation; and a request that passes
validation is applied verbatim — the clamps inside `apply_overrides` are
identities on it, so no override is silently clamped into range before being
applied. -/
theorem simulation_override_boundary (r : SimulationRequest) (base : SimState) :
    ((r.tvl_change_pct < -80 ∨ 80 < r.tvl_change_pct ∨
      r.volume_change_pct < -100 ∨ 200 < r.volume_change_pct ∨
      (∃ v, r.volatility_override = some v ∧ (v < 1/100 ∨ 1/2 < v)) ∨
      (∃ w, r.reserve_imbalance_override = some w ∧ (w < 0 ∨ 1 < w))) →
      validSimulationRequest r = false) ∧
    (validSimulationRequest r = true →
      (∀ v, r.volatility_override = some v →
        (applyOverrides base r.tvl_change_pct r.volume_change_pct
          r.volatility_override r.reserve_imbalance_override).volatility_6h = v ∧
        (applyOverrides base r.tvl_change_pct r.volume_change_pct
          r.volatility_override r.reserve_imbalance_override).volatility_24h
            = v * (80/100)) ∧
      (∀ w, r.reserve_imbalance_override = some w →
        (applyOverrides base r.tvl_change_pct r.volume_change_pct
          r.volatility_override r.reserve_imbalance_override).reserve_imbalance = w) ∧
      (r.tvl_change_pct ≠ 0 →
        (applyOverrides base r.tvl_change_pct r.volume_change_pct
          r.volatility_override r.reserve_imbalance_override).tvl_change_6h
            = r.tvl_change_pct / 100)) := by
  constructor
  · intro hdisj
    by_contra hne
    rw [Bool.not_eq_false] at hne
    simp only [validSimulationRequest, Bool.and_eq_true, decide_eq_true_eq] at hne
    obtain ⟨⟨⟨⟨h1, h2⟩, h3, h4⟩, h5⟩, h6⟩ := hne
    rcases hdisj with h | h | h | h | ⟨v, hv, hb⟩ | ⟨w, hw, hb⟩
    · linarith
    · linarith
    · linarith
    · linarith
    · rw [hv] at h5
      simp only [Bool.and_eq_true, decide_eq_true_eq] at h5
      rcases hb with hb | hb <;> linarith [h5.1, h5.2]
    · rw [hw] at h6
      simp only [Bool.and_eq_true, decide_eq_true_eq] at h6
      rcases hb with hb | hb <;> linarith [h6.1, h6.2]
  · intro hval
    simp only [validSimulationRequest, Bool.and_eq_true, decide_eq_true_eq] at hval
    obtain ⟨⟨⟨⟨ht1, ht2⟩, _, _⟩, h5⟩, h6⟩ := hval
    refine ⟨?_, ?_, ?_⟩
    · intro v hv
      rw [hv] at h5
      simp only [Bool.and_eq_true, decide_eq_true_eq] at h5
      have hclamp : max (1/100) (min (1/2) v) = v := by
        rw [min_eq_right h5.2, max_eq_right h5.1]
      unfold applyOverrides
      rw [hv]
      constructor
      · show (applyImbalanceOverride _ _).volatility_6h = v
        rw [(applyImbalanceOverride_keeps _ _).2.1,
            (applyVolatilityOverride_some _ _).1, hclamp]
      · show (applyImbalanceOverride _ _).volatility_24h = v * (80/100)
        rw [(applyImbalanceOverride_keeps _ _).2.2,
            (applyVolatilityOverride_some _ _).2, hclamp]
    · intro w hw
      rw [hw] at h6
      simp only [Bool.and_eq_true, decide_eq_true_eq] at h6
      have hclamp : max 0 (min 1 w) = w := by
        rw [min_eq_right h6.2, max_eq_right h6.1]
      unfold applyOverrides
      rw [hw]
      show max 0 (min 1 (applyImbalanceOverride _ _).reserve_imbalance) = w
      rw [applyImbalanceOverride_some, hclamp, hclamp]
    · intro hne
      unfold applyOverrides
      show max (-1) (min 1 (applyImbalanceOverride _ _).tvl_change_6h)
        = r.tvl_change_pct / 100
      rw [(applyImbalanceOverride_keeps _ _).1,
          (applyVolatilityOverride_keeps _ _).1,
          (applyVolumeOverride_keeps _ _).1,
          applyTvlOverride_tvl6, if_pos hne]
      have hlo : (-1 : ℚ) ≤ r.tvl_change_pct / 100 := by linarith
      have hhi : r.tvl_change_pct / 100 ≤ 1 := by linarith
      rw [min_eq_right hhi, max_eq_right hlo]

/-- Witness for C9: an out-of-range request is rejected, and a validated
request's overrides reach the feature vector unmodified. -/
theorem simulation_override_boundary_witness :
    validSimulationRequest ⟨"p", 500, 0, none, none⟩ = false ∧
    (applyOverrides demoSimState 50 0 (some (1/5)) (some (1/2))).volatility_6h = 1/5 ∧
    (applyOverrides demoSimState 50 0 (some (1/5)) (some (1/2))).reserve_imbalance = 1/2 ∧
    (applyOverrides demoSimState 50 0 (some (1/5)) (some (1/2))).tvl_change_6h = 50/100 := by
  refine ⟨?_, ?_, ?_, ?_⟩
  · exact (simulation_override_boundary ⟨"p", 500, 0, none, none⟩ demoSimState).1
      (Or.inr (Or.inl (by norm_num)))
  · exact (((simulation_override_boundary ⟨"p", 50, 0, some (1/5), some (1/2)⟩
      demoSimState).2 (by simp only [validSimulationRequest, Bool.and_eq_true,
        decide_eq_true_eq]; norm_num)).1 (1/5) rfl).1
  · exact ((simulation_override_boundary ⟨"p", 50, 0, some (1/5), some (1/2)⟩
      demoSimState).2 (by simp only [validSimulationRequest, Bool.and_eq_true,
        decide_eq_true_eq]; norm_num)).2.1 (1/2) rfl
  · exact ((simulation_override_boundary ⟨"p", 50, 0, some (1/5), some (1/2)⟩
      demoSimState).2 (by simp only [validSimulationRequest, Bool.and_eq_true,
        decide_eq_true_eq]; norm_num)).2.2 (by norm_num)

/-! ## C2 — forward labels -/

/-- C2: for a pool's time-sorted TVL series, every row with at least `horizon`
rows after it is labelled `1` iff `(tvl[i+horizon] - tvl[i]) / tvl[i] <
-threshold` (for both configurations `horizon=6, threshold=0.10` and
`horizon=24, threshold=0.20`); the final `horizon` rows receive no label and
are excluded from the training set kept by `create_forward_labels`. -/
theorem forward_label_spec (tvl : List ℚ) (h : ℕ) (θ : ℚ) (i : ℕ)
    (hcfg : (h = HORIZON_6H ∧ θ = CRASH_THRESHOLD_6H) ∨
            (h = HORIZON_24H ∧ θ = CRASH_THRESHOLD_24H))
    (hpos : 0 ≤ tvl.getD i 0) :
    (i + h < tvl.length →
      (forwardLabel tvl h θ i = some 1 ↔
        (tvl.getD (i + h) 0 - tvl.getD i 0) / tvl.getD i 0 < -θ)) ∧
    (tvl.length ≤ i + h →
      forwardLabel tvl h θ i = none ∧ i ∉ keptRowIndices tvl) := by
  have hθ : 0 < θ := by
    rcases hcfg with ⟨_, rfl⟩ | ⟨_, rfl⟩ <;>
      norm_num [CRASH_THRESHOLD_6H, CRASH_THRESHOLD_24H]
  have hh : h ≤ 24 := by
    rcases hcfg with ⟨rfl, _⟩ | ⟨rfl, _⟩ <;> norm_num [HORIZON_6H, HORIZON_24H]
  constructor
  · intro hlt
    unfold forwardLabel
    rw [if_pos hlt]
    dsimp only
    constructor
    · intro heq
      by_cases hc : 0 < tvl.getD i 0 ∧
          (tvl.getD (i + h) 0 - tvl.getD i 0) / tvl.getD i 0 < -θ
      · exact hc.2
      · rw [if_neg hc] at heq
        exact absurd (Option.some.inj heq) (by norm_num)
    · intro hratio
      have hcur : 0 < tvl.getD i 0 := by
        rcases lt_or_eq_of_le hpos with h0 | h0
        · exact h0
        · exfalso
          rw [← h0, sub_zero, div_zero] at hratio
          linarith
      rw [if_pos ⟨hcur, hratio⟩]
  · intro hge
    refine ⟨by unfold forwardLabel; rw [if_neg (by omega)], ?_⟩
    intro hmem
    unfold keptRowIndices at hmem
    rw [List.mem_filter] at hmem
    have h24 : forwardLabel tvl HORIZON_24H CRASH_THRESHOLD_24H i = none := by
      unfold forwardLabel
      rw [if_neg (by unfold HORIZON_24H; omega)]
    rw [h24] at hmem
    exact absurd hmem.2 (by simp)

/-- Witness for C2: a series of seven points whose TVL drops 20% over six
rows is labelled `1` at row 0 for the 6h/10% configuration, and the same row
gets no 24h label (fewer than 24 rows ahead). -/
theorem forward_label_spec_witness :
    forwardLabel [100, 100, 100, 100, 100, 100, 80] 6 (10/100) 0 = some 1 ∧
    forwardLabel [100, 100, 100, 100, 100, 100, 80] 24 (20/100) 0 = none := by
  constructor
  · exact ((forward_label_spec [100, 100, 100, 100, 100, 100, 80] 6 (10/100) 0
      (Or.inl ⟨rfl, rfl⟩) (by norm_num)).1 (by norm_num)).mpr (by norm_num)
  · exact ((forward_label_spec [100, 100, 100, 100, 100, 100, 80] 24 (20/100) 0
      (Or.inr ⟨rfl, rfl⟩) (by norm_num)).2 (by norm_num)).1

/-! ## C7 — the hourly upsert is idempotent per `(pool_id, hour)` -/

theorem countKey_cons (x : SnapshotHistoryRow) (l : List SnapshotHistoryRow)
    (p : String) (h : ℤ) :
    countKey (x :: l) p h =
      (if x.pool_id = p ∧ x.ts = h then 1 else 0) + countKey l p h := by
  by_cases hx : x.pool_id = p ∧ x.ts = h <;>
    simp [countKey, List.filter_cons, hx]
  omega

theorem countKey_upsert_self (r : SnapshotHistoryRow) (store : List SnapshotHistoryRow) :
    countKey (upsertSnapshot r store) r.pool_id r.ts =
      max 1 (countKey store r.pool_id r.ts) := by
  induction store with
  | nil => simp [upsertSnapshot, countKey, List.filter_cons]
  | cons s rest ih =>
    simp only [upsertSnapshot]
    by_cases hk : s.pool_id = r.pool_id ∧ s.ts = r.ts
    · rw [if_pos hk, countKey_cons, countKey_cons]
      simp only [hk.1, hk.2, and_self, if_true]
      omega
    · rw [if_neg hk, countKey_cons, countKey_cons, ih]
      simp only [hk, if_false]
      omega

theorem countKey_upsert_other (r : SnapshotHistoryRow) (store : List SnapshotHistoryRow)
    (p : String) (h : ℤ) (hne : ¬(r.pool_id = p ∧ r.ts = h)) :
    countKey (upsertSnapshot r store) p h = countKey store p h := by
  induction store with
  | nil => simp [upsertSnapshot, countKey, List.filter_cons, hne]
  | cons s rest ih =>
    simp only [upsertSnapshot]
    by_cases hk : s.pool_id = r.pool_id ∧ s.ts = r.ts
    · rw [if_pos hk, countKey_cons, countKey_cons]
    · rw [if_neg hk, countKey_cons, countKey_cons, ih]

theorem countKey_pos_of_mem {s : SnapshotHistoryRow} {l : List SnapshotHistoryRow}
    {p : String} {h : ℤ} (hs : s ∈ l) (hp : s.pool_id = p) (ht : s.ts = h) :
    0 < countKey l p h := by
  unfold countKey
  exact List.length_pos_of_mem (List.mem_filter.mpr ⟨hs, by simp [hp, ht]⟩)

theorem upsert_value_wins (r : SnapshotHistoryRow) (store : List SnapshotHistoryRow)
    (hinv : countKey store r.pool_id r.ts ≤ 1) :
    ∀ s ∈ upsertSnapshot r store, s.pool_id = r.pool_id → s.ts = r.ts →
      s.tvl = r.tvl ∧ s.volume_24h = r.volume_24h ∧ s.reserve0 = r.reserve0 ∧
        s.reserve1 = r.reserve1 ∧ s.source = r.source := by
  induction store with
  | nil =>
    intro s hs _ _
    simp only [upsertSnapshot] at hs
    rw [List.mem_singleton] at hs
    subst hs
    exact ⟨rfl, rfl, rfl, rfl, rfl⟩
  | cons s0 rest ih =>
    intro s hs hp ht
    rw [countKey_cons] at hinv
    simp only [upsertSnapshot] at hs
    by_cases hk : s0.pool_id = r.pool_id ∧ s0.ts = r.ts
    · rw [if_pos hk] at hs
      rw [if_pos hk] at hinv
      rcases List.mem_cons.mp hs with rfl | hs'
      · exact ⟨rfl, rfl, rfl, rfl, rfl⟩
      · exfalso
        have := countKey_pos_of_mem hs' hp ht
        omega
    · rw [if_neg hk] at hs
      rw [if_neg hk] at hinv
      rcases List.mem_cons.mp hs with rfl | hs'
      · exact absurd ⟨hp, ht⟩ hk
      · exact ih (by omega) s hs' hp ht

theorem upsert_preserves_inv (r : SnapshotHistoryRow) (store : List SnapshotHistoryRow)
    (hinv : ∀ p h, countKey store p h ≤ 1) :
    ∀ p h, countKey (upsertSnapshot r store) p h ≤ 1 := by
  intro p h
  by_cases hk : r.pool_id = p ∧ r.ts = h
  · rw [← hk.1, ← hk.2, countKey_upsert_self]
    exact max_le le_rfl (hinv _ _)
  · rw [countKey_upsert_other r store p h hk]
    exact hinv p h

/-- C7: hourly collection upserts are idempotent per `(pool_id, hour)`: if the
store satisfies the uniqueness invariant, collecting the same pool twice in
the same hour leaves exactly one `SnapshotHistory` record for that key, with
the second write's metric values winning, and the invariant (no duplicate
rows) is preserved for every key. -/
theorem hourly_upsert_idempotent (store : List SnapshotHistoryRow)
    (r₁ r₂ : SnapshotHistoryRow) (hp : r₁.pool_id = r₂.pool_id) (ht : r₁.ts = r₂.ts)
    (hinv : ∀ p h, countKey store p h ≤ 1) :
    countKey (upsertSnapshot r₂ (upsertSnapshot r₁ store)) r₂.pool_id r₂.ts = 1 ∧
    (∀ s ∈ upsertSnapshot r₂ (upsertSnapshot r₁ store),
      s.pool_id = r₂.pool_id → s.ts = r₂.ts →
      s.tvl = r₂.tvl ∧ s.volume_24h = r₂.volume_24h ∧ s.reserve0 = r₂.reserve0 ∧
        s.reserve1 = r₂.reserve1 ∧ s.source = r₂.source) ∧
    (∀ p h, countKey (upsertSnapshot r₂ (upsertSnapshot r₁ store)) p h ≤ 1) := by
  have hinv1 := upsert_preserves_inv r₁ store hinv
  refine ⟨?_, upsert_value_wins r₂ _ (hinv1 _ _), upsert_preserves_inv r₂ _ hinv1⟩
  rw [countKey_upsert_self, ← hp, ← ht, countKey_upsert_self,
      max_eq_left (hinv _ _)]
  omega

/-- Witness for C7: two writes for pool `"p"` at hour `0` leave one record. -/
theorem hourly_upsert_idempotent_witness :
    countKey
      (upsertSnapshot ⟨"p", 0, some 2, none, none, none, "b"⟩
        (upsertSnapshot ⟨"p", 0, some 1, none, none, none, "a"⟩ [])) "p" 0 = 1 :=
  (hourly_upsert_idempotent [] ⟨"p", 0, some 1, none, none, none, "a"⟩
    ⟨"p", 0, some 2, none, none, none, "b"⟩ rfl rfl
    (by intro p h; simp [countKey])).1

/-! ## C1 — no future leakage in the online feature engine -/

theorem roundToHour_le (t : ℤ) : roundToHour t ≤ t := by
  unfold roundToHour
  have := Int.emod_nonneg t (by norm_num : (60 : ℤ) ≠ 0)
  linarith

theorem filter_stable_of_agree {l₁ l₂ : List SnapshotHistoryRow}
    (P Q : SnapshotHistoryRow → Bool) (himp : ∀ a, P a = true → Q a = true)
    (hag : l₁.filter Q = l₂.filter Q) : l₁.filter P = l₂.filter P := by
  have key : ∀ l : List SnapshotHistoryRow, l.filter P = (l.filter Q).filter P := by
    intro l
    rw [List.filter_filter]
    apply List.filter_congr
    intro a _
    cases hp : P a with
    | true => rw [himp a hp, Bool.and_true]
    | false => rw [Bool.false_and]
  rw [key l₁, key l₂, hag]

/-- C1: the feature snapshot as of `t` is backward-looking only — it is
unchanged under any mutation of history rows with timestamp strictly greater
than `t` (two-run noninterference: any two stores that agree on the rows with
timestamp `≤ t` produce identical snapshots, and only rows in
`[as_of - 24h, as_of]` with `as_of = floor(t)` are ever read). -/
theorem compute_features_no_future_leakage (pool : String) (t : ℤ)
    (s₁ s₂ : List SnapshotHistoryRow)
    (hag : s₁.filter (fun r => decide (r.ts ≤ t)) =
           s₂.filter (fun r => decide (r.ts ≤ t))) :
    computeFeatures pool t s₁ = computeFeatures pool t s₂ := by
  unfold computeFeatures
  suffices h : getHistory pool 24 (roundToHour t) s₁ =
      getHistory pool 24 (roundToHour t) s₂ by dsimp only; rw [h]
  unfold getHistory
  dsimp only
  have hfil := filter_stable_of_agree
    (fun r => decide (r.pool_id = pool ∧ roundToHour t - 60 * 24 ≤ r.ts ∧
      r.ts ≤ roundToHour t))
    (fun r => decide (r.ts ≤ t))
    (by
      intro a ha
      rw [decide_eq_true_eq] at ha
      rw [decide_eq_true_eq]
      exact le_trans ha.2.2 (roundToHour_le t))
    hag
  rw [hfil]

/-- Witness for C1: a store holding only a future record (timestamp 1000 > 90)
yields the same snapshot as the empty store at `t = 90`. -/
theorem compute_features_no_future_leakage_witness :
    computeFeatures "p" 90 [] =
      computeFeatures "p" 90 [⟨"p", 1000, some 5, some 5, some 5, some 5, "x"⟩] :=
  compute_features_no_future_leakage "p" 90 _ _ rfl

/-! ## C5 — time-windowed alert deduplication -/

theorem countAlerts_append (l₁ l₂ : List AlertRow) (p ty : String) :
    countAlerts (l₁ ++ l₂) p ty = countAlerts l₁ p ty + countAlerts l₂ p ty := by
  simp [countAlerts, List.filter_append]

theorem hasRecentAlert_append (s l : List AlertRow) (pool ty : String) (now h : ℤ) :
    hasRecentAlert (s ++ l) pool ty now h =
      (hasRecentAlert s pool ty now h || hasRecentAlert l pool ty now h) := by
  simp [hasRecentAlert, List.any_append]

theorem hasRecentAlert_of_mem {a : AlertRow} {s : List AlertRow} {pool ty : String}
    {now h : ℤ} (hmem : a ∈ s) (hp : a.pool_id = pool) (hty : a.alert_type = ty)
    (hst : a.status = "active") (ht : now - h * 60 ≤ a.created_at) :
    hasRecentAlert s pool ty now h = true := by
  unfold hasRecentAlert
  rw [List.any_eq_true]
  exact ⟨a, hmem, by simp [hp, hty, hst, ht]⟩

/-- Counting the cycle's output of a rule step of its own type. -/
theorem countAlerts_runRule_self (pool ty : String) (cond : Bool) (risk : RiskInput)
    (msg : String) (pl : Option String) (ps : Option ℚ)
    (now : ℤ) (st : List AlertRow × List AlertRow) :
    countAlerts
        (runRule pool ty cond (createAlert pool ty risk msg pl ps now) now st).1
        pool ty =
      countAlerts st.1 pool ty +
        (if cond = true ∧ hasRecentAlert st.2 pool ty now 1 = false then 1 else 0) := by
  unfold runRule
  by_cases hc : (cond && !hasRecentAlert st.2 pool ty now 1) = true
  · rw [if_pos hc, countAlerts_append]
    rw [Bool.and_eq_true, Bool.not_eq_true'] at hc
    rw [if_pos hc]
    simp [countAlerts, createAlert]
  · rw [if_neg hc]
    rw [Bool.and_eq_true, Bool.not_eq_true'] at hc
    rw [if_neg hc]
    omega

/-- A rule step of a different type does not change the count of `ty`. -/
theorem countAlerts_runRule_other (pool ty' : String) (cond : Bool) (risk : RiskInput)
    (msg : String) (pl : Option String) (ps : Option ℚ)
    (now : ℤ) (st : List AlertRow × List AlertRow) (ty : String) (hne : ty' ≠ ty) :
    countAlerts
        (runRule pool ty' cond (createAlert pool ty' risk msg pl ps now) now st).1
        pool ty =
      countAlerts st.1 pool ty := by
  unfold runRule
  split
  · rw [countAlerts_append]
    have : countAlerts [createAlert pool ty' risk msg pl ps now] pool ty = 0 := by
      simp [countAlerts, createAlert, hne]
    omega
  · rfl

/-- A rule step of a different type does not change `has_recent_alert` for
`ty`. -/
theorem hasRecent_runRule_other (pool ty' : String) (cond : Bool) (risk : RiskInput)
    (msg : String) (pl : Option String) (ps : Option ℚ)
    (now : ℤ) (st : List AlertRow × List AlertRow) (ty : String) (now' h : ℤ)
    (hne : ty' ≠ ty) :
    hasRecentAlert
        (runRule pool ty' cond (createAlert pool ty' risk msg pl ps now) now st).2
        pool ty now' h =
      hasRecentAlert st.2 pool ty now' h := by
  unfold runRule
  split
  · rw [hasRecentAlert_append]
    have : hasRecentAlert [createAlert pool ty' risk msg pl ps now] pool ty now' h
        = false := by
      simp [hasRecentAlert, createAlert, hne]
    rw [this, Bool.or_false]
  · rfl

/-- Each rule step keeps `new store = old store ++ alerts generated so far`. -/
theorem runRule_store_inv (pool ty : String) (cond : Bool) (a : AlertRow)
    (now : ℤ) (st : List AlertRow × List AlertRow) (store : List AlertRow)
    (hst : st.2 = store ++ st.1) :
    (runRule pool ty cond a now st).2 = store ++ (runRule pool ty cond a now st).1 := by
  unfold runRule
  split
  · simp [hst]
  · exact hst

/-- Every alert a rule step adds to the cycle's output is either already in
the accumulator or is the rule's own alert. -/
theorem runRule_fst_mem (pool ty : String) (cond : Bool) (a : AlertRow)
    (now : ℤ) (st : List AlertRow × List AlertRow) :
    ∀ b ∈ (runRule pool ty cond a now st).1, b ∈ st.1 ∨ b = a := by
  intro b hb
  unfold runRule at hb
  split at hb
  · rcases List.mem_append.mp hb with hb' | hb'
    · exact Or.inl hb'
    · exact Or.inr (List.mem_singleton.mp hb')
  · exact Or.inl hb

/-- The evaluator's store after a cycle is the old store plus the cycle's
alerts, appended in rule order. -/
theorem evaluate_store_eq (pool : String) (risk : RiskInput)
    (previous : Option PrevRisk) (store : List AlertRow) (now : ℤ) :
    (evaluateAlertsForPool pool risk previous store now).2 =
      store ++ (evaluateAlertsForPool pool risk previous store now).1 := by
  unfold evaluateAlertsForPool
  cases previous with
  | none =>
    dsimp only
    apply runRule_store_inv
    apply runRule_store_inv
    simp
  | some prev =>
    dsimp only
    apply runRule_store_inv
    apply runRule_store_inv
    apply runRule_store_inv
    apply runRule_store_inv
    simp

/-- Every alert generated in a cycle is stamped with the cycle's time, is
`active`, and belongs to the evaluated pool. -/
theorem evaluate_fst_fresh (pool : String) (risk : RiskInput)
    (previous : Option PrevRisk) (store : List AlertRow) (now : ℤ) :
    ∀ a ∈ (evaluateAlertsForPool pool risk previous store now).1,
      a.created_at = now ∧ a.status = "active" ∧ a.pool_id = pool := by
  unfold evaluateAlertsForPool
  cases previous with
  | none =>
    dsimp only
    intro a ha
    rcases runRule_fst_mem _ _ _ _ _ _ a ha with ha' | rfl
    · rcases runRule_fst_mem _ _ _ _ _ _ a ha' with ha'' | rfl
      · simp at ha''
      · exact ⟨rfl, rfl, rfl⟩
    · exact ⟨rfl, rfl, rfl⟩
  | some prev =>
    dsimp only
    intro a ha
    rcases runRule_fst_mem _ _ _ _ _ _ a ha with ha' | rfl
    · rcases runRule_fst_mem _ _ _ _ _ _ a ha' with ha'' | rfl
      · rcases runRule_fst_mem _ _ _ _ _ _ a ha'' with ha''' | rfl
        · rcases runRule_fst_mem _ _ _ _ _ _ a ha''' with ha'''' | rfl
          · simp at ha''''
          · exact ⟨rfl, rfl, rfl⟩
        · exact ⟨rfl, rfl, rfl⟩
      · exact ⟨rfl, rfl, rfl⟩
    · exact ⟨rfl, rfl, rfl⟩

/-- The per-type alert count of one evaluation cycle: each of the four rules
creates exactly one alert of its type when its condition holds and no active
duplicate exists in the 1-hour window, and none otherwise. -/
theorem evaluate_countAlerts (pool : String) (risk : RiskInput)
    (previous : Option PrevRisk) (store : List AlertRow) (now : ℤ) (ty : String)
    (hty : ty ∈ alertTypes) :
    countAlerts (evaluateAlertsForPool pool risk previous store now).1 pool ty =
      (if ruleCondition ty risk previous = true ∧
          hasRecentAlert store pool ty now 1 = false then 1 else 0) := by
  have h12 : "HIGH_RISK_ALERT" ≠ "EARLY_WARNING_ALERT" := by decide
  have h13 : "HIGH_RISK_ALERT" ≠ "RISK_ESCALATION_ALERT" := by decide
  have h14 : "HIGH_RISK_ALERT" ≠ "RISK_SPIKE" := by decide
  have h23 : "EARLY_WARNING_ALERT" ≠ "RISK_ESCALATION_ALERT" := by decide
  have h24 : "EARLY_WARNING_ALERT" ≠ "RISK_SPIKE" := by decide
  have h34 : "RISK_ESCALATION_ALERT" ≠ "RISK_SPIKE" := by decide
  simp only [alertTypes, List.mem_cons, List.mem_singleton, List.not_mem_nil,
    or_false] at hty
  unfold evaluateAlertsForPool
  cases previous with
  | none =>
    dsimp only
    rcases hty with rfl | rfl | rfl | rfl
    · rw [countAlerts_runRule_other _ _ _ _ _ _ _ _ _ _ h12.symm,
          countAlerts_runRule_self]
      simp [countAlerts, ruleCondition]
    · rw [countAlerts_runRule_self,
          countAlerts_runRule_other _ _ _ _ _ _ _ _ _ _ h12,
          hasRecent_runRule_other _ _ _ _ _ _ _ _ _ _ _ _ h12]
      simp [countAlerts, ruleCondition]
    · rw [countAlerts_runRule_other _ _ _ _ _ _ _ _ _ _ h23,
          countAlerts_runRule_other _ _ _ _ _ _ _ _ _ _ h13]
      simp [countAlerts, ruleCondition]
    · rw [countAlerts_runRule_other _ _ _ _ _ _ _ _ _ _ h24,
          countAlerts_runRule_other _ _ _ _ _ _ _ _ _ _ h14]
      simp [countAlerts, ruleCondition]
  | some prev =>
    dsimp only
    rcases hty with rfl | rfl | rfl | rfl
    · rw [countAlerts_runRule_other _ _ _ _ _ _ _ _ _ _ h14.symm,
          countAlerts_runRule_other _ _ _ _ _ _ _ _ _ _ h13.symm,
          countAlerts_runRule_other _ _ _ _ _ _ _ _ _ _ h12.symm,
          countAlerts_runRule_self]
      simp [countAlerts, ruleCondition]
    · rw [countAlerts_runRule_other _ _ _ _ _ _ _ _ _ _ h24.symm,
          countAlerts_runRule_other _ _ _ _ _ _ _ _ _ _ h23.symm,
          countAlerts_runRule_self,
          countAlerts_runRule_other _ _ _ _ _ _ _ _ _ _ h12,
          hasRecent_runRule_other _ _ _ _ _ _ _ _ _ _ _ _ h12]
      simp [countAlerts, ruleCondition]
    · rw [countAlerts_runRule_other _ _ _ _ _ _ _ _ _ _ h34.symm,
          countAlerts_runRule_self,
          countAlerts_runRule_other _ _ _ _ _ _ _ _ _ _ h23,
          countAlerts_runRule_other _ _ _ _ _ _ _ _ _ _ h13,
          hasRecent_runRule_other _ _ _ _ _ _ _ _ _ _ _ _ h23,
          hasRecent_runRule_other _ _ _ _ _ _ _ _ _ _ _ _ h13]
      simp [countAlerts, ruleCondition]
    · rw [countAlerts_runRule_self,
          countAlerts_runRule_other _ _ _ _ _ _ _ _ _ _ h34,
          countAlerts_runRule_other _ _ _ _ _ _ _ _ _ _ h24,
          countAlerts_runRule_other _ _ _ _ _ _ _ _ _ _ h14,
          hasRecent_runRule_other _ _ _ _ _ _ _ _ _ _ _ _ h34,
          hasRecent_runRule_other _ _ _ _ _ _ _ _ _ _ _ _ h24,
          hasRecent_runRule_other _ _ _ _ _ _ _ _ _ _ _ _ h14]
      simp [countAlerts, ruleCondition]

theorem countAlerts_pos_elim {l : List AlertRow} {pool ty : String}
    (h : 0 < countAlerts l pool ty) :
    ∃ a ∈ l, a.pool_id = pool ∧ a.alert_type = ty := by
  unfold countAlerts at h
  rw [List.length_pos_iff_exists_mem] at h
  obtain ⟨a, ha⟩ := h
  rw [List.mem_filter] at ha
  refine ⟨a, ha.1, ?_⟩
  have := ha.2
  simp only [Bool.and_eq_true, beq_iff_eq] at this
  exact this

/-- C5: time-windowed deduplication — for every pool and alert type, if the
type's triggering condition holds at two evaluation cycles at times
`t₁ ≤ t₂ ≤ t₁ + 1h` (the second running on the store left by the first), and
no active duplicate predates the first cycle, then exactly one alert of that
type is created: one by the first cycle, none by the second. -/
theorem alert_dedup_window (ty pool : String) (risk₁ risk₂ : RiskInput)
    (prev₁ prev₂ : Option PrevRisk) (store : List AlertRow) (t₁ t₂ : ℤ)
    (hty : ty ∈ alertTypes)
    (hc1 : ruleCondition ty risk₁ prev₁ = true)
    (_hc2 : ruleCondition ty risk₂ prev₂ = true)
    (hnr : hasRecentAlert store pool ty t₁ 1 = false)
    (h12 : t₁ ≤ t₂) (hwin : t₂ ≤ t₁ + 60) :
    countAlerts (evaluateAlertsForPool pool risk₁ prev₁ store t₁).1 pool ty = 1 ∧
    countAlerts (evaluateAlertsForPool pool risk₂ prev₂
      (evaluateAlertsForPool pool risk₁ prev₁ store t₁).2 t₂).1 pool ty = 0 := by
  have hcount1 :
      countAlerts (evaluateAlertsForPool pool risk₁ prev₁ store t₁).1 pool ty = 1 := by
    rw [evaluate_countAlerts pool risk₁ prev₁ store t₁ ty hty, if_pos ⟨hc1, hnr⟩]
  refine ⟨hcount1, ?_⟩
  -- the first cycle's alert is visible to the second cycle's dedup check
  have hpos : 0 < countAlerts (evaluateAlertsForPool pool risk₁ prev₁ store t₁).1
      pool ty := by omega
  obtain ⟨a, hamem, hap, haty⟩ := countAlerts_pos_elim hpos
  obtain ⟨hac, hast, _⟩ := evaluate_fst_fresh pool risk₁ prev₁ store t₁ a hamem
  have hrecent : hasRecentAlert
      (evaluateAlertsForPool pool risk₁ prev₁ store t₁).2 pool ty t₂ 1 = true := by
    refine hasRecentAlert_of_mem ?_ hap haty hast ?_
    · rw [evaluate_store_eq]
      exact List.mem_append_right _ hamem
    · rw [hac]; omega
  rw [evaluate_countAlerts pool risk₂ prev₂ _ t₂ ty hty, if_neg]
  rintro ⟨_, hfalse⟩
  rw [hrecent] at hfalse
  cases hfalse

/-- Witness for C5: two HIGH-risk evaluations half an hour apart create one
`HIGH_RISK_ALERT` and suppress the second. -/
theorem alert_dedup_window_witness :
    countAlerts (evaluateAlertsForPool "p" ⟨75, "HIGH", none, []⟩ none [] 0).1
      "p" "HIGH_RISK_ALERT" = 1 ∧
    countAlerts (evaluateAlertsForPool "p" ⟨80, "HIGH", none, []⟩ none
      (evaluateAlertsForPool "p" ⟨75, "HIGH", none, []⟩ none [] 0).2 30).1
      "p" "HIGH_RISK_ALERT" = 0 :=
  alert_dedup_window "HIGH_RISK_ALERT" "p" ⟨75, "HIGH", none, []⟩
    ⟨80, "HIGH", none, []⟩ none none [] 0 30 (by decide)
    (by decide) (by decide) rfl (by norm_num) (by norm_num)

/-! ## C6 — escalation and spike fire together (Scenario D) -/

/-- Every escalation or spike alert generated in a cycle carries the previous
assessment's level and score for audit. -/
theorem evaluate_fst_prev_fields (pool : String) (risk : RiskInput)
    (prev : PrevRisk) (store : List AlertRow) (now : ℤ) :
    ∀ a ∈ (evaluateAlertsForPool pool risk (some prev) store now).1,
      (a.alert_type = "RISK_ESCALATION_ALERT" ∨ a.alert_type = "RISK_SPIKE") →
      a.previous_risk_level = some prev.risk_level ∧
        a.previous_risk_score = some prev.risk_score := by
  unfold evaluateAlertsForPool
  dsimp only
  intro a ha hty
  rcases runRule_fst_mem _ _ _ _ _ _ a ha with ha1 | rfl
  · rcases runRule_fst_mem _ _ _ _ _ _ a ha1 with ha2 | rfl
    · rcases runRule_fst_mem _ _ _ _ _ _ a ha2 with ha3 | rfl
      · rcases runRule_fst_mem _ _ _ _ _ _ a ha3 with ha4 | rfl
        · simp at ha4
        · simp [createAlert] at hty
      · simp [createAlert] at hty
    · exact ⟨rfl, rfl⟩
  · exact ⟨rfl, rfl⟩

/-- C6: Scenario D — with a previous assessment of score 40 (MEDIUM) and a
current assessment of score 75 (HIGH) and no recent duplicates, one
`RISK_ESCALATION_ALERT` (MEDIUM→HIGH is an escalation transition) and one
`RISK_SPIKE` alert (delta 35 ≥ 30) both fire in the same cycle, each carrying
the previous score and level. -/
theorem scenario_d_both_alerts :
    countAlerts (evaluateAlertsForPool "pool_x" ⟨75, "HIGH", none, []⟩
      (some ⟨40, "MEDIUM"⟩) [] 0).1 "pool_x" "RISK_ESCALATION_ALERT" = 1 ∧
    countAlerts (evaluateAlertsForPool "pool_x" ⟨75, "HIGH", none, []⟩
      (some ⟨40, "MEDIUM"⟩) [] 0).1 "pool_x" "RISK_SPIKE" = 1 ∧
    ((evaluateAlertsForPool "pool_x" ⟨75, "HIGH", none, []⟩
        (some ⟨40, "MEDIUM"⟩) [] 0).1.filter
      (fun a => a.alert_type == "RISK_ESCALATION_ALERT" ||
                a.alert_type == "RISK_SPIKE")).all
      (fun a => a.previous_risk_level == some "MEDIUM" &&
                a.previous_risk_score == some 40) = true := by
  refine ⟨?_, ?_, ?_⟩
  · rw [evaluate_countAlerts _ _ _ _ _ _ (by decide), if_pos]
    exact ⟨by decide, rfl⟩
  · rw [evaluate_countAlerts _ _ _ _ _ _ (by decide), if_pos]
    refine ⟨?_, rfl⟩
    have hred : ruleCondition "RISK_SPIKE" ⟨75, "HIGH", none, []⟩ (some ⟨40, "MEDIUM"⟩)
        = decide (riskSpikeDelta ≤ (75 : ℚ) - 40) := rfl
    rw [hred]
    exact decide_eq_true (by norm_num [riskSpikeDelta])
  · rw [List.all_eq_true]
    intro a ha
    rw [List.mem_filter] at ha
    have hty : a.alert_type = "RISK_ESCALATION_ALERT" ∨ a.alert_type = "RISK_SPIKE" := by
      have := ha.2
      simp only [Bool.or_eq_true, beq_iff_eq] at this
      exact this
    have hfields := evaluate_fst_prev_fields "pool_x" ⟨75, "HIGH", none, []⟩
      ⟨40, "MEDIUM"⟩ [] 0 a ha.1 hty
    simp [hfields.1, hfields.2]

/-! ## C3 — the train/test split is a per-pool cut along sorted time -/

theorem mem_insertPairByTs {x a : TrainRow × Option ℚ} :
    ∀ {l : List (TrainRow × Option ℚ)},
      x ∈ insertPairByTs a l ↔ x = a ∨ x ∈ l := by
  intro l
  induction l with
  | nil => simp [insertPairByTs]
  | cons b t ih =>
    simp only [insertPairByTs]
    split_ifs
    · simp
    · rw [List.mem_cons, ih, List.mem_cons]
      tauto

theorem pairwise_insertPairByTs (a : TrainRow × Option ℚ)
    (l : List (TrainRow × Option ℚ))
    (h : l.Pairwise (fun x y => x.1.ts ≤ y.1.ts)) :
    (insertPairByTs a l).Pairwise (fun x y => x.1.ts ≤ y.1.ts) := by
  induction l with
  | nil => simp [insertPairByTs]
  | cons b t ih =>
    rw [List.pairwise_cons] at h
    simp only [insertPairByTs]
    split_ifs with hab
    · rw [List.pairwise_cons]
      refine ⟨?_, List.pairwise_cons.mpr h⟩
      intro x hx
      rcases List.mem_cons.mp hx with rfl | hx'
      · exact hab
      · exact le_trans hab (h.1 x hx')
    · rw [List.pairwise_cons]
      constructor
      · intro x hx
        rcases mem_insertPairByTs.mp hx with rfl | hx'
        · exact le_of_lt (not_le.mp hab)
        · exact h.1 x hx'
      · exact ih h.2

theorem mem_sortPairsByTs {x : TrainRow × Option ℚ} :
    ∀ {l : List (TrainRow × Option ℚ)}, x ∈ sortPairsByTs l ↔ x ∈ l := by
  intro l
  induction l with
  | nil => simp [sortPairsByTs]
  | cons a t ih =>
    show x ∈ insertPairByTs a (sortPairsByTs t) ↔ _
    rw [mem_insertPairByTs, ih, List.mem_cons]

theorem pairwise_sortPairsByTs (l : List (TrainRow × Option ℚ)) :
    (sortPairsByTs l).Pairwise (fun x y => x.1.ts ≤ y.1.ts) := by
  induction l with
  | nil => simp [sortPairsByTs]
  | cons a t ih => exact pairwise_insertPairByTs a _ ih

theorem mem_of_mem_firstOccurAux :
    ∀ (l seen : List String) (x : String), x ∈ firstOccurAux seen l → x ∈ l := by
  intro l
  induction l with
  | nil => intro seen x h; simp [firstOccurAux] at h
  | cons a t ih =>
    intro seen x h
    simp only [firstOccurAux] at h
    split_ifs at h with hmem
    · exact List.mem_cons_of_mem _ (ih seen x h)
    · rcases List.mem_cons.mp h with rfl | h'
      · exact List.mem_cons_self _ _
      · exact List.mem_cons_of_mem _ (ih (a :: seen) x h')

theorem not_mem_seen_firstOccurAux :
    ∀ (l seen : List String) (x : String), x ∈ firstOccurAux seen l → x ∉ seen := by
  intro l
  induction l with
  | nil => intro seen x h; simp [firstOccurAux] at h
  | cons a t ih =>
    intro seen x h
    simp only [firstOccurAux] at h
    split_ifs at h with hmem
    · exact ih seen x h
    · rcases List.mem_cons.mp h with rfl | h'
      · exact hmem
      · intro hx
        exact ih (a :: seen) x h' (List.mem_cons_of_mem _ hx)

theorem pairwise_ne_firstOccurAux :
    ∀ (l seen : List String), (firstOccurAux seen l).Pairwise (· ≠ ·) := by
  intro l
  induction l with
  | nil => intro seen; simp [firstOccurAux]
  | cons a t ih =>
    intro seen
    simp only [firstOccurAux]
    split_ifs with hmem
    · exact ih seen
    · rw [List.pairwise_cons]
      refine ⟨?_, ih (a :: seen)⟩
      intro b hb hab
      exact not_mem_seen_firstOccurAux t (a :: seen) b hb
        (hab ▸ List.mem_cons_self _ _)

theorem pairwise_ne_firstOccur (l : List String) :
    (firstOccur l).Pairwise (· ≠ ·) :=
  pairwise_ne_firstOccurAux l []

/-- `compute_features`' per-pool regrouping produces a list in which any two
rows of the same pool appear in ascending timestamp order. -/
theorem computeFeaturesOrder_pairwise (rows : List (TrainRow × Option ℚ)) :
    (computeFeaturesOrder rows).Pairwise
      (fun a b => a.1.pool = b.1.pool → a.1.ts ≤ b.1.ts) := by
  unfold computeFeaturesOrder
  rw [show (firstOccur (rows.map (·.1.pool))).flatMap
        (fun p => sortPairsByTs (rows.filter (fun r => r.1.pool == p))) =
      ((firstOccur (rows.map (·.1.pool))).map
        (fun p => sortPairsByTs (rows.filter (fun r => r.1.pool == p)))).flatten
      from rfl]
  rw [List.pairwise_flatten]
  constructor
  · intro l' hl'
    rw [List.mem_map] at hl'
    obtain ⟨p, _, rfl⟩ := hl'
    refine List.Pairwise.imp ?_ (pairwise_sortPairsByTs _)
    intro a b hab _
    exact hab
  · rw [List.pairwise_map]
    apply (pairwise_ne_firstOccur _).imp
    intro p q hpq x hx y hy hpool
    have hxp : x.1.pool = p := by
      have := List.mem_filter.mp (mem_sortPairsByTs.mp hx)
      simpa using this.2
    have hyq : y.1.pool = q := by
      have := List.mem_filter.mp (mem_sortPairsByTs.mp hy)
      simpa using this.2
    exact absurd (hxp ▸ hyq ▸ hpool) hpq

/-- C3: the trainer's split never shuffles and is a single cut point along
sorted time per pool — every row of a pool assigned to the training partition
has a timestamp no later than every row of that pool assigned to the test
partition. -/
theorem train_test_split_time_ordered (snapshots : List TrainRow)
    (r₁ r₂ : TrainRow × Option ℚ)
    (h1 : r₁ ∈ (pipelineSplit snapshots).1)
    (h2 : r₂ ∈ (pipelineSplit snapshots).2)
    (hp : r₁.1.pool = r₂.1.pool) : r₁.1.ts ≤ r₂.1.ts := by
  unfold pipelineSplit at h1 h2
  dsimp only at h1 h2
  have hpw := computeFeaturesOrder_pairwise (createForwardLabelsDf (sortLex snapshots))
  rw [← List.take_append_drop
    (splitIdx (computeFeaturesOrder (createForwardLabelsDf (sortLex snapshots))).length)
    (computeFeaturesOrder (createForwardLabelsDf (sortLex snapshots))),
    List.pairwise_append] at hpw
  exact hpw.2.2 r₁ h1 r₂ h2 hp

/-- A constant pool series with 26 hourly rows, enough to keep two labeled
rows so that the 80% cut separates them. -/
def demoTrainRows : List TrainRow :=
  (List.range 26).map (fun i => ⟨"A", (i : ℤ), 0, 0, 0, 0⟩)

/-- Witness for C3: with 26 rows of one pool, the pipeline keeps two labeled
rows; the training row (hour 0) precedes the test row (hour 1). -/
theorem train_test_split_time_ordered_witness :
    ((⟨"A", 0, 0, 0, 0, 0⟩, some 0) : TrainRow × Option ℚ).1.ts ≤
      ((⟨"A", 1, 0, 0, 0, 0⟩, some 0) : TrainRow × Option ℚ).1.ts :=
  train_test_split_time_ordered demoTrainRows
    (⟨"A", 0, 0, 0, 0, 0⟩, some 0) (⟨"A", 1, 0, 0, 0, 0⟩, some 0)
    (by decide) (by decide) rfl

end VeriRisk
